import Mathlib

/-
Verification of the versioned-model recommender in
`src/recommendation_system.py` (class `RecommendationSystem`), shallowly
embedded in Lean 4.

Modelling conventions:
- pandas DataFrames become lists of records; dicts become association lists
  (Python dicts preserve insertion order, which association lists mirror).
- Ratings and timestamps are rationals; Pearson correlation values are real
  numbers (the source computes with floats; exact real arithmetic is the
  idealisation, and float rounding is not modelled).
- A missing value (NaN) in a correlation is an `Option.none`; `dropna`
  becomes `filterMap`.
- File-system state: the model directory is a list of (version, blob) pairs,
  a blob being `none` when `pickle.load` would raise, `some md` otherwise.
-/

set_option maxRecDepth 4000
set_option autoImplicit false

variable {α : Type*} {κ : Type*}

/-! ## Character/string helpers (Python `str` operations used by the code) -/

/-- Does `pat` occur at the head of `s`? (helper for substring search). -/
def startsAt : List Char → List Char → Bool
  | [], _ => true
  | _ :: _, [] => false
  | p :: ps, c :: cs => p == c && startsAt ps cs

/-- Python `pat in s` (substring containment). -/
def hasSub (pat : List Char) : List Char → Bool
  | [] => pat.isEmpty
  | c :: cs => startsAt pat (c :: cs) || hasSub pat cs

/-- Fuel-driven worker for `replAll`; fuel is the length of the string, which
suffices because every step consumes at least one character. -/
def replAllGo (pat : List Char) : ℕ → List Char → List Char
  | 0, s => s
  | _ + 1, [] => []
  | n + 1, c :: cs =>
    if startsAt pat (c :: cs) && !pat.isEmpty then
      replAllGo pat n ((c :: cs).drop pat.length)
    else
      c :: replAllGo pat n cs

/-- Python `s.replace(pat, '')`: remove all non-overlapping occurrences of
`pat`, scanning left to right. -/
def replAll (pat s : List Char) : List Char := replAllGo pat s.length s

/-- ASCII whitespace recognised by Python `str.strip`. -/
def isPySpace (c : Char) : Bool :=
  c == ' ' || c == '\t' || c == '\n' || c == '\r' || c == '\x0b' || c == '\x0c'

/-- Python `s.strip()`. -/
def pyStrip (s : List Char) : List Char :=
  ((s.dropWhile isPySpace).reverse.dropWhile isPySpace).reverse

/-- Python `s.lower()` (the names in this data set are ASCII). -/
def lowerData (s : String) : List Char := s.data.map Char.toLower

/-! ## `is_same_series` (lines 474–502 of `recommendation_system.py`) -/

/-- The suffix tokens stripped by `is_same_series`, in source order. -/
def removeWords : List String :=
  ["movie", "ova", "ona", "special", "tv", "recap",
   "picture drama", "specials", "prologue", "epilogue"]

/-- `name.lower().strip()` followed by `replace(word, '').strip()` for each
token of `removeWords`, in order (the source strips after every removal). -/
def cleanName (s : List Char) : List Char :=
  removeWords.foldl (fun acc w => pyStrip (replAll w.data acc))
    (pyStrip (s.map Char.toLower))

/-- `clean.split(':')[0].split('-')[0].strip()`: the substring before the
first colon, then before the first dash, stripped. -/
def baseName (s : List Char) : List Char :=
  pyStrip ((s.takeWhile (fun c => c != ':')).takeWhile (fun c => c != '-'))

/-- `is_same_series(candidate_name, source_name)`: after cleaning both names,
the candidate is flagged when the source base name is longer than 3
characters and either base name occurs in the other cleaned name.  (The
source checks only `len(source_base) > 3`; the candidate base length is
never tested.) -/
def sameSeries (candidateName sourceName : String) : Bool :=
  let sourceClean := cleanName sourceName.data
  let candidateClean := cleanName candidateName.data
  let sourceBase := baseName sourceClean
  let candidateBase := baseName candidateClean
  if 3 < sourceBase.length then
    hasSub sourceBase candidateClean || hasSub candidateBase sourceClean
  else
    false

/-! ## Genre parsing and Jaccard similarity (`_parse_genres`,
`_calculate_genre_similarity`) -/

/-- Split a character list on commas; `splitComma []` is `[[]]`, matching
Python `''.split(',') == ['']`. -/
def splitComma : List Char → List (List Char)
  | [] => [[]]
  | c :: cs =>
    let r := splitComma cs
    if c == ',' then [] :: r
    else (c :: r.headD []) :: r.tail

/-- Append `x` if not already present (Python `set` modelled as a duplicate
free list). -/
def insertUniq [DecidableEq α] (x : α) (l : List α) : List α :=
  if x ∈ l then l else l ++ [x]

/-- Remove duplicates keeping first occurrences. -/
def dedupList [DecidableEq α] (l : List α) : List α :=
  l.foldl (fun acc x => insertUniq x acc) []

/-- `_parse_genres`: `none` (pandas NaN) gives the empty set, otherwise split
on commas, strip each piece, and keep the non-empty pieces as a set. -/
def parseGenres (g : Option String) : List String :=
  match g with
  | none => []
  | some s =>
    dedupList (((splitComma s.data).map pyStrip).filterMap
      (fun t => if t.isEmpty then none else some (String.mk t)))

/-- Number of distinct elements of `g1` also in `g2`. -/
def interCount (g1 g2 : List String) : ℕ :=
  ((dedupList g1).filter (fun x => g2.contains x)).length

/-- Number of distinct elements of `g1 ++ g2`. -/
def unionCount (g1 g2 : List String) : ℕ := (dedupList (g1 ++ g2)).length

/-- `_calculate_genre_similarity`: Jaccard similarity, 0 when either set is
empty. -/
def calcGenreSim (g1 g2 : List String) : ℚ :=
  if g1.isEmpty || g2.isEmpty then 0
  else if unionCount g1 g2 = 0 then 0
  else (interCount g1 g2 : ℚ) / (unionCount g1 g2 : ℚ)

/-! ## Pearson correlation over paired observations -/

/-- Mean of a list of rationals (`0` on the empty list, where the source
would produce NaN; never reached with a non-empty list). -/
def meanQ (l : List ℚ) : ℚ := l.sum / (l.length : ℚ)

/-- Sum of squared deviations from the mean. -/
def sqDevSum (l : List ℚ) : ℚ := (l.map (fun x => (x - meanQ l) ^ 2)).sum

/-- Sum of products of paired deviations. -/
def devProdSum (l : List (ℚ × ℚ)) : ℚ :=
  (l.map (fun p => (p.1 - meanQ (l.map Prod.fst)) * (p.2 - meanQ (l.map Prod.snd)))).sum

/-- Pearson correlation of the paired observations: NaN (here `none`) when
either variance is zero (this covers fewer than two observations), otherwise
the usual quotient.  Matches what `DataFrame.corrwith` / `.corr` produce on
a pair of columns restricted to their common non-null rows. -/
noncomputable def pearson (l : List (ℚ × ℚ)) : Option ℝ :=
  if sqDevSum (l.map Prod.fst) = 0 ∨ sqDevSum (l.map Prod.snd) = 0 then none
  else some ((devProdSum l : ℝ) /
    Real.sqrt ((sqDevSum (l.map Prod.fst) : ℝ) * (sqDevSum (l.map Prod.snd) : ℝ)))

/-! ## Sorting helpers (pandas sorts pivot/groupby labels; `sort_values` on
scores is modelled by a descending insertion sort — the claims proved below
never depend on tie order) -/

/-- Insert `x` into `l` keeping `le`-sortedness (stable). -/
def insertLe (le : α → α → Bool) (x : α) : List α → List α
  | [] => [x]
  | y :: ys => if le x y then x :: y :: ys else y :: insertLe le x ys

/-- Insertion sort by a boolean `le`. -/
def sortLe (le : α → α → Bool) (l : List α) : List α := l.foldr (insertLe le) []

/-- Lexicographic order on character lists (string order used by pandas for
column labels). -/
def lexLe : List Char → List Char → Bool
  | [], _ => true
  | _ :: _, [] => false
  | a :: as, b :: bs => if a = b then lexLe as bs else decide (a < b)

/-- String order via the underlying character lists. -/
def strLe (a b : String) : Bool := lexLe a.data b.data

/-! ## The merged fact table (`pd.merge(animes_df, ratings_df)`) -/

/-- One row of `anime.csv` (columns `anime_id, name, genre, members`; a NaN
genre is `none`). -/
structure AnimeRow where
  anime_id : ℕ
  name : String
  genre : Option String
  members : ℕ
deriving DecidableEq

/-- One row of the rating CSV (columns `user_id, anime_id, rating`). -/
structure RatingRow where
  user_id : ℕ
  anime_id : ℕ
  rating : ℚ
deriving DecidableEq

/-- One row of the merged `ratings_df`. -/
structure FactRow where
  anime_id : ℕ
  name : String
  genre : Option String
  members : ℕ
  user_id : ℕ
  rating : ℚ
deriving DecidableEq

/-- `pd.merge` on the shared `anime_id` column: inner join, left-frame key
order, dropping ratings whose item id has no catalog row. -/
def mergeFacts (animes : List AnimeRow) (ratings : List RatingRow) : List FactRow :=
  animes.flatMap (fun a =>
    (ratings.filter (fun r => r.anime_id == a.anime_id)).map (fun r =>
      { anime_id := a.anime_id, name := a.name, genre := a.genre,
        members := a.members, user_id := r.user_id, rating := r.rating }))

/-! ## Pivot table and statistics -/

/-- `ratings_df.pivot_table(index='user_id', columns='name', values='rating')`
with explicit row/column label lists and one entry per non-null cell. -/
structure Pivot where
  rows : List ℕ
  cols : List String
  entries : List (ℕ × String × ℚ)
deriving DecidableEq

/-- Cell of the pivot: `none` models NaN (user never rated the item). -/
def pivotCell (p : Pivot) (u : ℕ) (c : String) : Option ℚ :=
  (p.entries.find? (fun e => e.1 == u && e.2.1 == c)).map (fun e => e.2.2)

/-- The rows on which both columns `a` and `b` are non-null, in row order:
the co-rater observations the correlation of `a` and `b` is computed from. -/
def pairedColumn (p : Pivot) (a b : String) : List (ℚ × ℚ) :=
  p.rows.filterMap (fun u =>
    match pivotCell p u a, pivotCell p u b with
    | some x, some y => some (x, y)
    | _, _ => none)

/-- Sorted distinct user ids of the fact table (pivot index). -/
def pivotRowsOf (facts : List FactRow) : List ℕ :=
  sortLe (fun a b => a ≤ b) (dedupList (facts.map (fun f => f.user_id)))

/-- Sorted distinct item names of the fact table (pivot columns). -/
def pivotColsOf (facts : List FactRow) : List String :=
  sortLe strLe (dedupList (facts.map (fun f => f.name)))

/-- All ratings a user gave one item (duplicates aggregated by
`pivot_table`'s default mean). -/
def cellRatings (facts : List FactRow) (u : ℕ) (c : String) : List ℚ :=
  (facts.filter (fun f => f.user_id == u && f.name == c)).map (fun f => f.rating)

/-- Build the user×item pivot from the fact table. -/
def buildPivot (facts : List FactRow) : Pivot :=
  { rows := pivotRowsOf facts
    cols := pivotColsOf facts
    entries := (pivotRowsOf facts).flatMap (fun u =>
      (pivotColsOf facts).filterMap (fun c =>
        let rs := cellRatings facts u c
        if rs.isEmpty then none else some (u, c, meanQ rs))) }

/-- Sorted distinct item names (groupby keys). -/
def groupNames (facts : List FactRow) : List String :=
  sortLe strLe (dedupList (facts.map (fun f => f.name)))

/-- `ratings_df.groupby('name')['rating'].count()` (also `agg(np.size)`). -/
def groupCount (facts : List FactRow) : List (String × ℕ) :=
  (groupNames facts).map (fun n => (n, (facts.filter (fun f => f.name == n)).length))

/-- `ratings_df.groupby('name')['rating'].mean()`. -/
def groupMean (facts : List FactRow) : List (String × ℚ) :=
  (groupNames facts).map (fun n =>
    (n, meanQ ((facts.filter (fun f => f.name == n)).map (fun f => f.rating))))

/-! ## Item×item correlation matrix -/

/-- `userRatings_pivot.corr(method='pearson', min_periods=100)`: column
labels plus one entry per (row label, column label) pair whose correlation is
defined; pairs with fewer than 100 co-raters, or with zero variance, are
simply absent. -/
structure CorrM where
  cols : List String
  entries : List (String × String × ℝ)

/-- Build the correlation matrix from the pivot with the 100-co-rater floor. -/
noncomputable def buildCorrMatrix (p : Pivot) : CorrM :=
  { cols := p.cols
    entries := p.cols.flatMap (fun i =>
      p.cols.filterMap (fun j =>
        let l := pairedColumn p i j
        if 100 ≤ l.length then (pearson l).map (fun v => (i, j, v)) else none)) }

/-- Query one correlation coefficient; `none` is "undefined". -/
def corrLookup (m : CorrM) (a b : String) : Option ℝ :=
  (m.entries.find? (fun e => e.1 == a && e.2.1 == b)).map (fun e => e.2.2)

/-- `corrMatrix[a].dropna()`: the defined entries of column `a`, as
(item, coefficient) pairs. -/
def corrColumn (m : CorrM) (a : String) : List (String × ℝ) :=
  m.entries.filterMap (fun e => if e.2.1 == a then some (e.1, e.2.2) else none)

/-! ## Objects stored in the dictionaries (`Anime`, `User` model objects) -/

/-- The `Anime` object (`Anime(anime_id, name, members)` with `genre` set
afterwards). -/
structure AnimeObj where
  anime_id : ℕ
  name : String
  members : ℕ
  genre : Option String
deriving DecidableEq

/-- The `User` object (`User(user_id, anime_id, rating)`). -/
structure UserEntry where
  user_id : ℕ
  anime_id : ℕ
  rating : ℚ
deriving DecidableEq

/-- Python dict assignment `d[k] = v` on an insertion-ordered association
list: overwrite in place, or append a new key. -/
def assocSet [BEq κ] (k : κ) (v : α) (l : List (κ × α)) : List (κ × α) :=
  if l.any (fun kv => kv.1 == k) then
    l.map (fun kv => if kv.1 == k then (k, v) else kv)
  else l ++ [(k, v)]

/-- `users_dict.setdefault(uid, []).append(user)` as done in training. -/
def usersAppend (u : ℕ) (e : UserEntry) (d : List (ℕ × List UserEntry)) :
    List (ℕ × List UserEntry) :=
  match List.lookup u d with
  | none => d ++ [(u, [e])]
  | some l => assocSet u (l ++ [e]) d

/-- `ratings_df[['name','genre']].drop_duplicates('name')`: first row per
name, in order. -/
def firstByName : List FactRow → List String → List FactRow
  | [], _ => []
  | f :: fs, seen =>
    if seen.contains f.name then firstByName fs seen
    else f :: firstByName fs (f.name :: seen)

/-- `_extract_genres`: parse the genre string of the first row per item and
store it in the (pre-existing) `animeGenres` dict. -/
def extractGenres (existing : List (String × List String)) (facts : List FactRow) :
    List (String × List String) :=
  (firstByName facts []).foldl (fun acc f => assocSet f.name (parseGenres f.genre) acc) existing

/-! ## System state (`RecommendationSystem`'s mutable fields) -/

/-- The fields of a `RecommendationSystem` instance that the lifecycle and
engine read and write.  `data_files_hash` models the string
`f"{anime_mtime}_{rating_mtime}"` as the pair of timestamps (the underscore
makes that rendering injective).  `current_model_version` is `0` for the
source's `None` (exactly how `get_model_info` renders it). -/
structure SysState where
  animes_dict : List (ℕ × AnimeObj)
  users_dict : List (ℕ × List UserEntry)
  ratings_df : List FactRow
  userRatings_pivot : Pivot
  corrMatrix : CorrM
  animeStats : List (String × ℕ)
  animePopularity : Option (List (String × ℕ))
  animeAvgRating : Option (List (String × ℚ))
  animeGenres : List (String × List String)
  current_model_version : ℕ
  data_files_hash : Option (ℚ × ℚ)

/-- `_calculate_anime_stats`: popularity (rating count) and mean rating per
item, from the fact table. -/
def calculateAnimeStats (s : SysState) : SysState :=
  { s with animePopularity := some (groupCount s.ratings_df),
           animeAvgRating := some (groupMean s.ratings_df) }

/-- `_extract_genres` acting on the state. -/
def extractGenresState (s : SysState) : SysState :=
  { s with animeGenres := extractGenres s.animeGenres s.ratings_df }

/-! ## Model artifacts and the artifact store -/

/-- The pickled `model_data` dict.  Required keys are read with `[...]`
(raising `KeyError` when absent, hence `Option`); the last four are read
with `.get` and may legitimately be absent. -/
structure ModelData where
  animes_dict : Option (List (ℕ × AnimeObj))
  users_dict : Option (List (ℕ × List UserEntry))
  ratings_df : Option (List FactRow)
  userRatings_pivot : Option Pivot
  corrMatrix : Option CorrM
  animeStats : Option (List (String × ℕ))
  animePopularity : Option (List (String × ℕ))
  animeAvgRating : Option (List (String × ℚ))
  animeGenres : Option (List (String × List String))
  version : ℕ
  data_files_hash : Option (ℚ × ℚ)

/-- The model directory: one entry per file matching
`corr_matrix_v{n}.pkl`, keyed by the version `n` encoded in the file name;
the blob is `none` when opening/unpickling the file raises. -/
abbrev Store : Type := List (ℕ × Option ModelData)

/-- `_get_latest_version`: maximum version among the version-named files,
`0` if none exist. -/
def latestVersion (store : Store) : ℕ :=
  (store.map Prod.fst).foldr max 0

/-- `_get_next_version`. -/
def nextVersion (store : Store) : ℕ := latestVersion store + 1

/-- The body of `_load_latest_model`'s `try:` block, given an unpickled
`model_data`.  The source assigns `self.<field> = model_data['<key>']` one
key at a time; a missing required key raises `KeyError` mid-sequence, which
the enclosing `except` turns into `False` — with every field assigned before
the failing key already overwritten. -/
def loadFields (md : ModelData) (v : ℕ) (s : SysState) : Bool × SysState :=
  match md.animes_dict with
  | none => (false, s)
  | some animes =>
  let s1 := { s with animes_dict := animes }
  match md.users_dict with
  | none => (false, s1)
  | some users =>
  let s2 := { s1 with users_dict := users }
  match md.ratings_df with
  | none => (false, s2)
  | some rdf =>
  let s3 := { s2 with ratings_df := rdf }
  match md.userRatings_pivot with
  | none => (false, s3)
  | some pv =>
  let s4 := { s3 with userRatings_pivot := pv }
  match md.corrMatrix with
  | none => (false, s4)
  | some cm =>
  let s5 := { s4 with corrMatrix := cm }
  match md.animeStats with
  | none => (false, s5)
  | some stats =>
  let s6 := { s5 with animeStats := stats }
  let s7 := { s6 with animePopularity := md.animePopularity,
                      animeAvgRating := md.animeAvgRating,
                      animeGenres := md.animeGenres.getD [] }
  let s8 := if s7.animePopularity.isNone then calculateAnimeStats s7 else s7
  let s9 := if s8.animeGenres.isEmpty then extractGenresState s8 else s8
  (true, { s9 with current_model_version := v, data_files_hash := md.data_files_hash })

/-- `_load_latest_model`: resolve the latest version (regardless of the
currently served one), then load it; `False` when no version-named file
exists or loading raises. -/
def loadLatestModel (store : Store) (s : SysState) : Bool × SysState :=
  let v := latestVersion store
  if v = 0 then (false, s)
  else
    match List.lookup v store with
    | none => (false, s)
    | some none => (false, s)
    | some (some md) => loadFields md v s

/-- `reload_model`: delegates to `_load_latest_model`. -/
def reloadModel (store : Store) (s : SysState) : Bool × SysState :=
  loadLatestModel store s

/-! ## Source-data fingerprint (`get_data_files_hash`, `has_data_changed`) -/

/-- The live file system as seen by `get_data_files_hash`: the modification
timestamps of `anime_csv_path` and `rating_csv_path`, each `none` when
`stat` raises. -/
def getDataFilesHash (fs : Option ℚ × Option ℚ) : Option (ℚ × ℚ) :=
  match fs.1, fs.2 with
  | some animeMtime, some ratingMtime => some (animeMtime, ratingMtime)
  | _, _ => none

/-- `has_data_changed`: `False` when either fingerprint is unavailable,
otherwise inequality of the fingerprints. -/
def hasDataChanged (fs : Option ℚ × Option ℚ) (s : SysState) : Bool :=
  match getDataFilesHash fs, s.data_files_hash with
  | some current, some stored => current != stored
  | _, _ => false

/-! ## Training (`train_model`, `_load_data_for_training`) -/

/-- The training loop `self.animes_dict[row['anime_id']] = anime` over the
catalog rows, on top of the pre-existing dict. -/
def buildAnimesDict (animes : List AnimeRow) (d : List (ℕ × AnimeObj)) :
    List (ℕ × AnimeObj) :=
  animes.foldl (fun acc a => assocSet a.anime_id ⟨a.anime_id, a.name, a.members, a.genre⟩ acc) d

/-- The training loop appending one `User` object per fact row, on top of the
pre-existing dict. -/
def buildUsersDict (facts : List FactRow) (d : List (ℕ × List UserEntry)) :
    List (ℕ × List UserEntry) :=
  facts.foldl (fun acc f => usersAppend f.user_id ⟨f.user_id, f.anime_id, f.rating⟩ acc) d

/-- `_load_data_for_training`: rebuild every model structure from the CSV
contents, assigning each structure to the live object's field as soon as it
is built (the source mutates `self` in place; nothing is staged). -/
noncomputable def loadDataForTraining (animes : List AnimeRow) (ratings : List RatingRow)
    (s : SysState) : SysState :=
  let facts := mergeFacts animes ratings
  let sA := { s with ratings_df := facts }
  let sB := { sA with animeGenres := extractGenres sA.animeGenres facts }
  let sC := { sB with animes_dict := buildAnimesDict animes sB.animes_dict }
  let sD := { sC with users_dict := buildUsersDict facts sC.users_dict }
  let p := buildPivot facts
  let sE := { sD with userRatings_pivot := p }
  let sF := { sE with corrMatrix := buildCorrMatrix p }
  let sG := { sF with animeStats := groupCount facts }
  calculateAnimeStats sG

/-- `train_model(save)`: run `_load_data_for_training` on the live object,
then (when saving) pickle the freshly assigned fields under the next version
and record version and fingerprint on the live object. -/
noncomputable def trainModel (fs : Option ℚ × Option ℚ)
    (animes : List AnimeRow) (ratings : List RatingRow) (save : Bool)
    (s : SysState) (store : Store) : SysState × Store :=
  let s1 := loadDataForTraining animes ratings s
  if save then
    let v := nextVersion store
    let dataHash := getDataFilesHash fs
    let md : ModelData :=
      { animes_dict := some s1.animes_dict
        users_dict := some s1.users_dict
        ratings_df := some s1.ratings_df
        userRatings_pivot := some s1.userRatings_pivot
        corrMatrix := some s1.corrMatrix
        animeStats := some s1.animeStats
        animePopularity := s1.animePopularity
        animeAvgRating := s1.animeAvgRating
        animeGenres := some s1.animeGenres
        version := v
        data_files_hash := dataHash }
    ({ s1 with current_model_version := v, data_files_hash := dataHash },
     store ++ [(v, some md)])
  else (s1, store)

/-- `N` successive `train_model(save=True)` calls (the data and file system
held fixed between calls). -/
noncomputable def trainIter (fs : Option ℚ × Option ℚ)
    (animes : List AnimeRow) (ratings : List RatingRow) :
    ℕ → SysState × Store → SysState × Store
  | 0, p => p
  | n + 1, p => trainIter fs animes ratings n (trainModel fs animes ratings true p.1 p.2)

/-! ## Propositional list combinators for the real-valued pipeline -/

/-- `List.filter` with a propositional predicate (the admission filters
compare real-valued scores, so decidability is classical). -/
noncomputable def filterP (P : α → Prop) : List α → List α
  | [] => []
  | x :: xs => @ite _ (P x) (Classical.propDecidable _) (x :: filterP P xs) (filterP P xs)

/-- Insert into a descending list by real-valued key (stable). -/
noncomputable def insertDesc (key : α → ℝ) (x : α) : List α → List α
  | [] => [x]
  | y :: ys =>
    @ite _ (key y ≤ key x) (Classical.propDecidable _) (x :: y :: ys) (y :: insertDesc key x ys)

/-- `sort_values(ascending=False)` by a real-valued key. -/
noncomputable def sortDesc (key : α → ℝ) (l : List α) : List α := l.foldr (insertDesc key) []

/-- Python `round` to `d` decimal places (half-to-even on the exact value;
binary-float rounding is not modelled).  Display-only. -/
noncomputable def pyRound (d : ℕ) (x : ℝ) : ℝ :=
  (let y := x * (10 : ℝ) ^ d
   @ite _ (y - (⌊y⌋ : ℝ) < 1/2) (Classical.propDecidable _) ((⌊y⌋ : ℝ))
     (@ite _ ((1:ℝ)/2 < y - (⌊y⌋ : ℝ)) (Classical.propDecidable _) ((⌊y⌋ : ℝ) + 1)
       (@ite _ (Even ⌊y⌋) (Classical.propDecidable _) ((⌊y⌋ : ℝ)) ((⌊y⌋ : ℝ) + 1)))) /
  (10 : ℝ) ^ d

/-! ## Single-seed hybrid engine (`get_recommendations_adjusted`) -/

/-- Name resolution: exact pivot-column match, else the first column whose
lower-cased name contains the lower-cased query, else not found. -/
def resolveName (cols : List String) (query : String) : Option String :=
  if cols.contains query then some query
  else (cols.filter (fun c => hasSub (lowerData query) (lowerData c))).head?

/-- `self.userRatings_pivot.corrwith(anime_ratings).dropna()`: for every
pivot column, the Pearson correlation with the seed column over their common
non-null rows — note: no `min_periods`, so the 100-co-rater floor of
`corrMatrix` does NOT apply here. -/
noncomputable def simList (s : SysState) (seed : String) : List (String × ℝ) :=
  s.userRatings_pivot.cols.filterMap (fun c =>
    (pearson (pairedColumn s.userRatings_pivot seed c)).map (fun v => (c, v)))

/-- One row of the candidate DataFrame after all joins. -/
structure Row where
  name : String
  corr : ℝ
  gsim : ℚ
  avg : ℚ
  pop : ℕ

/-- The joined `avg_rating` value of an item (`df.get('avg_rating', 7)`
yields the scalar default 7 when the column is absent; an item missing from
the index would be NaN in the source, a case no claim exercises and which is
modelled by the same default). -/
def avgOf (s : SysState) (n : String) : ℚ :=
  match s.animeAvgRating with
  | none => 7
  | some l => (List.lookup n l).getD 7

/-- The joined `popularity` value of an item (scalar default 0 when the
column is absent, as in `df.get('popularity', 0)`). -/
def popOf (s : SysState) (n : String) : ℕ :=
  match s.animePopularity with
  | none => 0
  | some l => (List.lookup n l).getD 0

/-- `self.animeGenres.get(name, set())`. -/
def genresOf (s : SysState) (n : String) : List String :=
  (List.lookup n s.animeGenres).getD []

/-- `self.animeStats[popular_animes].join(df).dropna()` plus the avg/pop
joins and the genre-similarity column: one row per item with at least 100
ratings whose correlation with the seed is defined. -/
noncomputable def candidateRows (s : SysState) (seed : String) : List Row :=
  s.animeStats.filterMap (fun nc =>
    if 100 ≤ nc.2 then
      (List.lookup nc.1 (simList s seed)).map (fun v =>
        { name := nc.1, corr := v,
          gsim := calcGenreSim (genresOf s seed) (genresOf s nc.1),
          avg := avgOf s nc.1, pop := popOf s nc.1 })
    else none)

/-- `df = df[df.index != exact_anime_name]` followed by the same-series
filter. -/
noncomputable def seriesFiltered (s : SysState) (seed : String) : List Row :=
  ((candidateRows s seed).filter (fun w => w.name != seed)).filter
    (fun w => !sameSeries w.name seed)

/-- The admission filter of the six rating regimes (source lines 508–581). -/
noncomputable def regimeRows (r : ℚ) (rows : List Row) : List Row :=
  if (4.5 : ℚ) ≤ r then
    filterP (fun w => (0.3 : ℚ) < w.gsim) (filterP (fun w => (0.5 : ℝ) < w.corr) rows)
  else if (4.0 : ℚ) ≤ r then
    filterP (fun w => (0.2 : ℚ) < w.gsim) (filterP (fun w => (0.4 : ℝ) < w.corr) rows)
  else if (3.5 : ℚ) ≤ r then
    filterP (fun w => (0.15 : ℚ) < w.gsim) (filterP (fun w => (0.2 : ℝ) < w.corr) rows)
  else if (3.0 : ℚ) ≤ r then
    filterP (fun w => (0.1 : ℝ) < w.corr ∧ w.corr < (0.6 : ℝ)) rows
  else if (2.0 : ℚ) ≤ r then
    filterP (fun w => w.gsim < (0.4 : ℚ)) (filterP (fun w => w.corr < (0.2 : ℝ)) rows)
  else
    filterP (fun w => w.gsim < (0.3 : ℚ)) (filterP (fun w => w.corr < (0.15 : ℝ)) rows)

/-- `df.get('popularity', 1).max()` over the rows the score is computed on
(the admitted rows). -/
noncomputable def maxPop (rows : List Row) : ℝ :=
  (rows.map (fun w => (w.pop : ℝ))).foldr max 0

/-- The popularity term of the two low-affinity regimes; 0 when the
popularity column is absent (the source would raise there: `.max()` on the
scalar default — never reached with a trained snapshot). -/
noncomputable def popTerm (s : SysState) (rows : List Row) (w : Row) : ℝ :=
  match s.animePopularity with
  | none => 0
  | some _ => (w.pop : ℝ) / maxPop rows

/-- `df['final_score']` of each regime (weights per source lines 514–581). -/
noncomputable def regimeScore (s : SysState) (r : ℚ) (rows : List Row) (w : Row) : ℝ :=
  if (4.5 : ℚ) ≤ r then
    w.corr * 0.6 + (w.gsim : ℝ) * 0.3 + ((w.avg : ℝ) / 10) * 0.1
  else if (4.0 : ℚ) ≤ r then
    w.corr * 0.55 + (w.gsim : ℝ) * 0.3 + ((w.avg : ℝ) / 10) * 0.15
  else if (3.5 : ℚ) ≤ r then
    w.corr * 0.4 + (w.gsim : ℝ) * 0.3 + ((w.avg : ℝ) / 10) * 0.3
  else if (3.0 : ℚ) ≤ r then
    w.corr * 0.3 + (w.gsim : ℝ) * 0.3 + ((w.avg : ℝ) / 10) * 0.4
  else if (2.0 : ℚ) ≤ r then
    ((w.avg : ℝ) / 10) * 0.5 + (1 - (w.gsim : ℝ)) * 0.3 + popTerm s rows w * 0.2
  else
    ((w.avg : ℝ) / 10) * 0.5 + (1 - (w.gsim : ℝ)) * 0.4 + popTerm s rows w * 0.1

/-- The recommendation record returned to the web layer. -/
structure Rec where
  title : String
  score : ℝ
  genre : String
  correlation : ℝ
  genreMatch : ℝ

/-- `str(anime_info.get('genre', 'Unknown'))` via
`ratings_df[ratings_df['name'] == name].iloc[0]`; a NaN genre prints as
`"nan"`.  An item absent from `ratings_df` would raise `IndexError` in the
source (never reached with a trained snapshot); modelled by `"Unknown"`. -/
def displayGenre (s : SysState) (n : String) : String :=
  match s.ratings_df.find? (fun f => f.name == n) with
  | some f => f.genre.getD "nan"
  | none => "Unknown"

/-- `top_recommendations.loc[name].get('avg_rating', anime_info.get('rating', 0))`. -/
def displayAvg (s : SysState) (w : Row) : ℚ :=
  match s.animeAvgRating with
  | some _ => w.avg
  | none =>
    match s.ratings_df.find? (fun f => f.name == w.name) with
    | some f => f.rating
    | none => 0

/-- Build one output record from a candidate row (source lines 589–608). -/
noncomputable def mkRec (s : SysState) (w : Row) : Rec :=
  { title := w.name
    score := pyRound 1 ((displayAvg s w : ℚ) : ℝ)
    genre := displayGenre s w.name
    correlation := pyRound 2 (w.corr * 0.6 + (w.gsim : ℝ) * 0.4)
    genreMatch := pyRound 2 ((w.gsim : ℝ)) }

/-- `get_recommendations_adjusted(anime_name, user_rating, num_recommendations)`:
`none` models the `(None, None)` not-found return. -/
noncomputable def getRecommendationsAdjusted (s : SysState) (animeName : String)
    (userRating : ℚ) (numRecs : ℕ) : Option (List Rec × String) :=
  match resolveName s.userRatings_pivot.cols animeName with
  | none => none
  | some exactName =>
    let adm := regimeRows userRating (seriesFiltered s exactName)
    let sorted := sortDesc (regimeScore s userRating adm) adm
    some ((sorted.take numRecs).map (mkRec s), exactName)

/-! ## Multi-seed engine (`get_recommendations_for_user`) -/

/-- The rating-dependent multiplier applied to a seed's correlation vector
(source lines 636–647): boost `≥4.5`, identity `[4,4.5)`, dampen `[3,4)`,
sign-invert below 3. -/
def ratingMultiplier (r : ℚ) : ℚ :=
  if (4.5 : ℚ) ≤ r then r * 1.2
  else if (4 : ℚ) ≤ r then r
  else if (3.5 : ℚ) ≤ r then r * 0.8
  else if (3 : ℚ) ≤ r then r * 0.6
  else if (2 : ℚ) ≤ r then -(6 - r)
  else -(7 - r)

/-- The concatenated scaled correlation vectors of all resolved seeds
(`pd.concat` of the per-seed `sims`); a seed that resolves to no column is
skipped. -/
noncomputable def userContribs (s : SysState) (profile : List (String × ℚ)) :
    List (String × ℝ) :=
  profile.flatMap (fun kv =>
    match resolveName s.corrMatrix.cols kv.1 with
    | none => []
    | some nm =>
      (corrColumn s.corrMatrix nm).map (fun cv => (cv.1, cv.2 * ((ratingMultiplier kv.2 : ℚ) : ℝ))))

/-- The distinct item names of the concatenated series, in groupby (sorted)
order. -/
def aggNames (l : List (String × ℝ)) : List String :=
  sortLe strLe (dedupList (l.map Prod.fst))

/-- The aggregate score of one item: the sum of its entries across all
seeds. -/
noncomputable def aggScore (l : List (String × ℝ)) (n : String) : ℝ :=
  ((l.filter (fun kv => kv.1 == n)).map Prod.snd).sum

/-- `simCandidates.groupby(simCandidates.index).sum()`. -/
noncomputable def aggregateContribs (l : List (String × ℝ)) : List (String × ℝ) :=
  (aggNames l).map (fun n => (n, aggScore l n))

/-- `anime_info.get('rating', 0)` for the display score of the multi-seed
output (the first fact row's rating). -/
def firstRating (s : SysState) (n : String) : ℚ :=
  match s.ratings_df.find? (fun f => f.name == n) with
  | some f => f.rating
  | none => 0

/-- The record returned per item by the multi-seed query. -/
structure RecU where
  title : String
  score : ℝ
  genre : String
  correlation : ℝ

/-- `get_recommendations_for_user(user_ratings_dict, num_recommendations)`:
aggregate, sort descending, drop every item named as a key of the profile,
truncate, render. -/
noncomputable def getRecommendationsForUser (s : SysState) (profile : List (String × ℚ))
    (n : ℕ) : List RecU :=
  let sorted := sortDesc Prod.snd (aggregateContribs (userContribs s profile))
  let dropped := sorted.filter (fun cv => !(profile.any (fun kv => kv.1 == cv.1)))
  (dropped.take n).map (fun cv =>
    { title := cv.1
      score := pyRound 1 ((firstRating s cv.1 : ℚ) : ℝ)
      genre := displayGenre s cv.1
      correlation := pyRound 2 (cv.2 / ((profile.map Prod.snd).sum : ℝ)) })

/-! ## Concrete data used by the scenario theorems below -/

/-- A trivially loadable artifact (every required key present). -/
def mdTrivial : ModelData :=
  { animes_dict := some []
    users_dict := some []
    ratings_df := some []
    userRatings_pivot := some ⟨[], [], []⟩
    corrMatrix := some ⟨[], []⟩
    animeStats := some []
    animePopularity := some []
    animeAvgRating := some []
    animeGenres := some [("g", ["x"])]
    version := 1
    data_files_hash := none }

/-- A served state at version 1 (fields arbitrary but concrete). -/
def stServing1 : SysState :=
  { animes_dict := [(99, ⟨99, "Old", 7, none⟩)]
    users_dict := []
    ratings_df := []
    userRatings_pivot := ⟨[], ["Old"], []⟩
    corrMatrix := ⟨["Old"], []⟩
    animeStats := [("Old", 5)]
    animePopularity := some []
    animeAvgRating := some []
    animeGenres := [("Old", ["G"])]
    current_model_version := 1
    data_files_hash := some (1, 1) }

/-- A store holding exactly the one loadable artifact, version 1. -/
def storeV1 : Store := [(1, some mdTrivial)]

/-- An artifact whose `corrMatrix` key is missing: unpickling succeeds but
`model_data['corrMatrix']` raises `KeyError` after four fields were already
assigned. -/
def mdMissingCorr : ModelData :=
  { animes_dict := some [(5, ⟨5, "New", 3, none⟩)]
    users_dict := some [(7, [⟨7, 5, 9⟩])]
    ratings_df := some []
    userRatings_pivot := some ⟨[7], ["New"], [(7, "New", 9)]⟩
    corrMatrix := none
    animeStats := some [("New", 1)]
    animePopularity := none
    animeAvgRating := none
    animeGenres := none
    version := 2
    data_files_hash := some (2, 2) }

/-- Store with a good v1 artifact and a corrupt v2 artifact. -/
def storeV2Bad : Store := [(1, some mdTrivial), (2, some mdMissingCorr)]

/-- Catalog rows of the C1 counterexample training data. -/
def c1Animes : List AnimeRow := [⟨10, "X", some "G", 4⟩]

/-- Rating rows of the C1 counterexample training data. -/
def c1Ratings : List RatingRow := [⟨1, 10, 8⟩]

/-- A blank pre-load state (the source constructor refuses to serve without
a model; used here as the state a training run starts from). -/
def blankState : SysState :=
  { animes_dict := []
    users_dict := []
    ratings_df := []
    userRatings_pivot := ⟨[], [], []⟩
    corrMatrix := ⟨[], []⟩
    animeStats := []
    animePopularity := none
    animeAvgRating := none
    animeGenres := []
    current_model_version := 0
    data_files_hash := none }

/-- The served state of the co-rater-floor counterexample, exactly what a
training run produces on a CSV with items `Aaaa` (id 10) and `Bbbb` (id 20),
both of genre `G`, where user 1 rates both items 3, user 2 rates `Aaaa` 5
and has 99 (duplicate) rating rows of 5 for `Bbbb`: `Bbbb` then has 100
rating rows (so it passes the popularity floor) while only users 1 and 2 —
fewer than 100 — rated both items.  (`pivot_table` aggregates the duplicate
rows by their mean, 5; only the first four fact rows are kept below, which
the engine uses solely for display lookups.) -/
def c2State : SysState :=
  { animes_dict := [(10, ⟨10, "Aaaa", 4, some "G"⟩), (20, ⟨20, "Bbbb", 4, some "G"⟩)]
    users_dict := []
    ratings_df :=
      [⟨10, "Aaaa", some "G", 4, 1, 3⟩, ⟨10, "Aaaa", some "G", 4, 2, 5⟩,
       ⟨20, "Bbbb", some "G", 4, 1, 3⟩, ⟨20, "Bbbb", some "G", 4, 2, 5⟩]
    userRatings_pivot :=
      ⟨[1, 2], ["Aaaa", "Bbbb"],
       [(1, "Aaaa", 3), (1, "Bbbb", 3), (2, "Aaaa", 5), (2, "Bbbb", 5)]⟩
    corrMatrix := ⟨[], []⟩
    animeStats := [("Aaaa", 2), ("Bbbb", 100)]
    animePopularity := some [("Aaaa", 2), ("Bbbb", 100)]
    animeAvgRating := some [("Aaaa", 4), ("Bbbb", 249/50)]
    animeGenres := [("Aaaa", ["G"]), ("Bbbb", ["G"])]
    current_model_version := 1
    data_files_hash := some (1, 2) }

/-- The spec's hybrid-scorer scenario state: catalog `A` (genres X,Y),
`B` (genres X,Z), `C` (genre Y).  The pivot realises correlation(A,B) = 0.6
— users 1..4 rate `A` as 6,6,4,4 and `B` as 17/2,9/2,11/2,3/2 — and makes
correlation(A,C) undefined (`C` is co-rated only by user 1; `corrwith`
yields NaN there, which the engine drops).  `B` and `C` carry 100 ratings so
only the undefined correlation, not the popularity floor, excludes `C`. -/
def c5State : SysState :=
  { animes_dict := []
    users_dict := []
    ratings_df :=
      [⟨1, "A", some "X, Y", 4, 1, 6⟩, ⟨2, "B", some "X, Z", 4, 1, 5⟩,
       ⟨3, "C", some "Y", 4, 1, 7⟩]
    userRatings_pivot :=
      ⟨[1, 2, 3, 4], ["A", "B", "C"],
       [(1, "A", 6), (2, "A", 6), (3, "A", 4), (4, "A", 4),
        (1, "B", 17/2), (2, "B", 9/2), (3, "B", 11/2), (4, "B", 3/2),
        (1, "C", 7)]⟩
    corrMatrix := ⟨[], []⟩
    animeStats := [("A", 4), ("B", 100), ("C", 100)]
    animePopularity := some [("A", 4), ("B", 100), ("C", 100)]
    animeAvgRating := some [("A", 5), ("B", 5), ("C", 7)]
    animeGenres := [("A", ["X", "Y"]), ("B", ["X", "Z"]), ("C", ["Y"])]
    current_model_version := 1
    data_files_hash := none }

/-- A state whose correlation matrix has the single defined entry
corr("Bb", "Aa") = 1, used to exercise the multi-seed query. -/
noncomputable def c9State : SysState :=
  { animes_dict := []
    users_dict := []
    ratings_df := []
    userRatings_pivot := ⟨[], [], []⟩
    corrMatrix := ⟨["Aa", "Bb"], [("Bb", "Aa", (1 : ℝ))]⟩
    animeStats := []
    animePopularity := none
    animeAvgRating := none
    animeGenres := []
    current_model_version := 1
    data_files_hash := none }

/-- A served state whose only catalog item is `Naruto` (the engine then
returns an empty recommendation list for it). -/
def narutoState : SysState :=
  { animes_dict := []
    users_dict := []
    ratings_df := []
    userRatings_pivot := ⟨[], ["Naruto"], []⟩
    corrMatrix := ⟨[], []⟩
    animeStats := []
    animePopularity := none
    animeAvgRating := none
    animeGenres := []
    current_model_version := 1
    data_files_hash := none }

/-- A served state whose only catalog item is `Zzz`. -/
def zzzState : SysState :=
  { animes_dict := []
    users_dict := []
    ratings_df := []
    userRatings_pivot := ⟨[], ["Zzz"], []⟩
    corrMatrix := ⟨[], []⟩
    animeStats := []
    animePopularity := none
    animeAvgRating := none
    animeGenres := []
    current_model_version := 1
    data_files_hash := none }

/-- The claim's wording of the same-series test, for comparison with the
source's `sameSeries`: "exclude the candidate exactly when either base name
of length greater than 3 is contained in the other's cleaned full name". -/
def specSameSeries (candidateName sourceName : String) : Bool :=
  let sourceClean := cleanName sourceName.data
  let candidateClean := cleanName candidateName.data
  let sourceBase := baseName sourceClean
  let candidateBase := baseName candidateClean
  (3 < sourceBase.length && hasSub sourceBase candidateClean) ||
    (3 < candidateBase.length && hasSub candidateBase sourceClean)

/-- A state serving the tiny correlation matrix built from a pivot whose
two columns share a single co-rater (used to instantiate the co-rater-floor
theorem). -/
noncomputable def c2wState : SysState :=
  { blankState with
      corrMatrix := buildCorrMatrix ⟨[1], ["P", "Q"], [(1, "P", 3), (1, "Q", 4)]⟩ }

/-! # Theorems

General-purpose lemmas first, then one theorem per claim (with witnesses and
counterexamples where required). -/

theorem filterP_nil (P : α → Prop) : filterP P [] = [] := rfl

theorem filterP_cons_pos (P : α → Prop) (x : α) (xs : List α) (h : P x) :
    filterP P (x :: xs) = x :: filterP P xs := by
  conv_lhs => unfold filterP
  rw [if_pos h]

theorem filterP_cons_neg (P : α → Prop) (x : α) (xs : List α) (h : ¬ P x) :
    filterP P (x :: xs) = filterP P xs := by
  conv_lhs => unfold filterP
  rw [if_neg h]

theorem mem_filterP {P : α → Prop} {a : α} :
    ∀ {l : List α}, a ∈ filterP P l → a ∈ l ∧ P a
  | [], h => by simp [filterP_nil] at h
  | x :: xs, h => by
    by_cases hx : P x
    · rw [filterP_cons_pos _ _ xs hx] at h
      rcases List.mem_cons.mp h with rfl | h2
      · exact ⟨List.mem_cons_self _ _, hx⟩
      · have := mem_filterP h2
        exact ⟨List.mem_cons_of_mem _ this.1, this.2⟩
    · rw [filterP_cons_neg _ _ xs hx] at h
      have := mem_filterP h
      exact ⟨List.mem_cons_of_mem _ this.1, this.2⟩

theorem mem_insertDesc {key : α → ℝ} {a x : α} :
    ∀ {l : List α}, a ∈ insertDesc key x l → a = x ∨ a ∈ l
  | [], h => by
    unfold insertDesc at h
    exact Or.inl (by simpa using h)
  | y :: ys, h => by
    unfold insertDesc at h
    by_cases hc : key y ≤ key x
    · rw [if_pos hc] at h
      rcases List.mem_cons.mp h with rfl | h2
      · exact Or.inl rfl
      · exact Or.inr h2
    · rw [if_neg hc] at h
      rcases List.mem_cons.mp h with rfl | h2
      · exact Or.inr (List.mem_cons_self _ _)
      · rcases mem_insertDesc h2 with h3 | h3
        · exact Or.inl h3
        · exact Or.inr (List.mem_cons_of_mem _ h3)

theorem mem_sortDesc {key : α → ℝ} {a : α} :
    ∀ {l : List α}, a ∈ sortDesc key l → a ∈ l
  | [], h => by simp [sortDesc] at h
  | x :: xs, h => by
    have h1 : a ∈ insertDesc key x (sortDesc key xs) := h
    rcases mem_insertDesc h1 with rfl | h2
    · exact List.mem_cons_self _ _
    · exact List.mem_cons_of_mem _ (mem_sortDesc h2)

theorem sortDesc_singleton (key : α → ℝ) (x : α) : sortDesc key [x] = [x] := rfl

theorem latestVersion_cons (k : ℕ) (b : Option ModelData) (st : Store) :
    latestVersion ((k, b) :: st) = max k (latestVersion st) := rfl

theorem le_latestVersion {st : Store} {v : ℕ} (h : v ∈ st.map Prod.fst) :
    v ≤ latestVersion st := by
  induction st with
  | nil => simp at h
  | cons kb st ih =>
    rw [latestVersion_cons kb.1 kb.2]
    rcases List.mem_cons.mp h with h1 | h1
    · exact h1 ▸ le_max_left _ _
    · exact le_trans (ih h1) (le_max_right _ _)

theorem latestVersion_mem (st : Store) :
    latestVersion st = 0 ∨ latestVersion st ∈ st.map Prod.fst := by
  induction st with
  | nil => exact Or.inl rfl
  | cons kb st ih =>
    rw [latestVersion_cons kb.1 kb.2]
    rcases le_or_lt (latestVersion st) kb.1 with h | h
    · right
      rw [max_eq_left h]
      exact List.mem_cons_self _ _
    · rw [max_eq_right (le_of_lt h)]
      rcases ih with h1 | h1
      · omega
      · exact Or.inr (List.mem_cons_of_mem _ h1)

theorem latestVersion_append (st : Store) (v : ℕ) (b : Option ModelData) :
    latestVersion (st ++ [(v, b)]) = max (latestVersion st) v := by
  induction st with
  | nil => simp [latestVersion]
  | cons kb st ih =>
    rw [List.cons_append, latestVersion_cons kb.1 kb.2, ih, latestVersion_cons kb.1 kb.2]
    omega

theorem loadFields_success {md : ModelData}
    (ha : md.animes_dict.isSome) (hu : md.users_dict.isSome)
    (hr : md.ratings_df.isSome) (hp : md.userRatings_pivot.isSome)
    (hc : md.corrMatrix.isSome) (hs : md.animeStats.isSome)
    (v : ℕ) (s : SysState) :
    (loadFields md v s).1 = true ∧
      (loadFields md v s).2.current_model_version = v ∧
      (loadFields md v s).2.data_files_hash = md.data_files_hash := by
  obtain ⟨a, ha⟩ := Option.isSome_iff_exists.mp ha
  obtain ⟨u, hu⟩ := Option.isSome_iff_exists.mp hu
  obtain ⟨r, hr⟩ := Option.isSome_iff_exists.mp hr
  obtain ⟨p, hp⟩ := Option.isSome_iff_exists.mp hp
  obtain ⟨c, hc⟩ := Option.isSome_iff_exists.mp hc
  obtain ⟨st, hs⟩ := Option.isSome_iff_exists.mp hs
  unfold loadFields
  rw [ha, hu, hr, hp, hc, hs]
  constructor
  · rfl
  constructor
  · rfl
  · rfl

theorem pearson_eval (l : List (ℚ × ℚ)) (a b c : ℚ)
    (ha : sqDevSum (l.map Prod.fst) = a) (hb : sqDevSum (l.map Prod.snd) = b)
    (hc : devProdSum l = c) (h0 : ¬ a = 0) (h1 : ¬ b = 0) :
    pearson l = some ((c : ℝ) / Real.sqrt ((a : ℝ) * (b : ℝ))) := by
  unfold pearson
  rw [ha, hb, hc, if_neg (by tauto)]

theorem pearson_undefined (l : List (ℚ × ℚ))
    (h : sqDevSum (l.map Prod.fst) = 0 ∨ sqDevSum (l.map Prod.snd) = 0) :
    pearson l = none := by
  unfold pearson
  rw [if_pos h]

theorem pairedColumn_length_comm (p : Pivot) (a b : String) :
    (pairedColumn p a b).length = (pairedColumn p b a).length := by
  unfold pairedColumn
  induction p.rows with
  | nil => rfl
  | cons u us ih =>
    simp only [List.filterMap_cons]
    cases hA : pivotCell p u a <;> cases hB : pivotCell p u b <;>
      simp [List.length_cons, ih]

theorem lookup_mem [BEq κ] [LawfulBEq κ] {l : List (κ × α)} {k : κ} {v : α}
    (h : List.lookup k l = some v) : (k, v) ∈ l := by
  induction l with
  | nil => simp at h
  | cons kv l ih =>
    obtain ⟨k1, v1⟩ := kv
    by_cases heq : k = k1
    · subst heq
      simp [List.lookup] at h
      subst h
      exact List.mem_cons_self _ _
    · have hbeq : (k == k1) = false := beq_false_of_ne heq
      simp [List.lookup, hbeq] at h
      exact List.mem_cons_of_mem _ (ih h)

theorem recsAdjusted_mem {s : SysState} {q : String} {r : ℚ} {n : ℕ}
    {recs : List Rec} {ex : String}
    (hres : getRecommendationsAdjusted s q r n = some (recs, ex))
    {rc : Rec} (hm : rc ∈ recs) :
    ∃ w, w ∈ regimeRows r (seriesFiltered s ex) ∧ rc = mkRec s w := by
  unfold getRecommendationsAdjusted at hres
  cases hcase : resolveName s.userRatings_pivot.cols q with
  | none => rw [hcase] at hres; exact absurd hres (by simp)
  | some e =>
    rw [hcase] at hres
    simp only [Option.some.injEq, Prod.mk.injEq] at hres
    obtain ⟨hrecs, hex⟩ := hres
    subst hex
    rw [← hrecs] at hm
    obtain ⟨w, hw, hrc⟩ := List.mem_map.mp hm
    have hw2 := List.take_subset _ _ hw
    exact ⟨w, mem_sortDesc hw2, hrc.symm⟩

theorem mem_seriesFiltered {s : SysState} {seed : String} {w : Row}
    (hm : w ∈ seriesFiltered s seed) :
    w ∈ candidateRows s seed ∧ w.name ≠ seed ∧ sameSeries w.name seed = false := by
  unfold seriesFiltered at hm
  have h1 := List.mem_filter.mp hm
  have h2 := List.mem_filter.mp h1.1
  refine ⟨h2.1, ?_, ?_⟩
  · simpa using h2.2
  · simpa using h1.2

theorem mem_regimeRows_high {r : ℚ} (hr : (4.5 : ℚ) ≤ r) {w : Row} {rows : List Row}
    (hm : w ∈ regimeRows r rows) :
    w ∈ rows ∧ (0.5 : ℝ) < w.corr ∧ (0.3 : ℚ) < w.gsim := by
  unfold regimeRows at hm
  rw [if_pos hr] at hm
  have h1 := mem_filterP hm
  have h2 := mem_filterP h1.1
  exact ⟨h2.1, h2.2, h1.2⟩

theorem regimeScore_high {s : SysState} {r : ℚ} (hr : (4.5 : ℚ) ≤ r)
    (rows : List Row) (w : Row) :
    regimeScore s r rows w =
      w.corr * 0.6 + (w.gsim : ℝ) * 0.3 + ((w.avg : ℝ) / 10) * 0.1 := by
  unfold regimeScore
  rw [if_pos hr]

theorem mem_candidateRows {s : SysState} {seed : String} {w : Row}
    (hm : w ∈ candidateRows s seed) :
    ∃ cnt, (w.name, cnt) ∈ s.animeStats ∧ 100 ≤ cnt ∧
      (w.name, w.corr) ∈ simList s seed ∧
      w.gsim = calcGenreSim (genresOf s seed) (genresOf s w.name) := by
  unfold candidateRows at hm
  obtain ⟨nc, hnc, hw⟩ := List.mem_filterMap.mp hm
  by_cases hcnt : 100 ≤ nc.2
  · rw [if_pos hcnt] at hw
    obtain ⟨v, hv, hrow⟩ := Option.map_eq_some'.mp hw
    have hname : w.name = nc.1 := by rw [← hrow]
    have hcorr : w.corr = v := by rw [← hrow]
    have hgsim : w.gsim = calcGenreSim (genresOf s seed) (genresOf s nc.1) := by rw [← hrow]
    refine ⟨nc.2, ?_, hcnt, ?_, ?_⟩
    · rw [hname]; exact (by simpa using hnc)
    · rw [hname, hcorr]
      exact lookup_mem hv
    · rw [hgsim, hname]
  · rw [if_neg hcnt] at hw
    exact absurd hw (by simp)

theorem mem_regimeRows {r : ℚ} {w : Row} {rows : List Row}
    (hm : w ∈ regimeRows r rows) : w ∈ rows := by
  unfold regimeRows at hm
  repeat' split at hm
  all_goals
    first
      | exact (mem_filterP (mem_filterP hm).1).1
      | exact (mem_filterP hm).1

theorem regimeRows_nil (r : ℚ) : regimeRows r [] = [] := by
  unfold regimeRows
  repeat' split
  all_goals rfl

theorem mkRec_title (s : SysState) (w : Row) : (mkRec s w).title = w.name := rfl

/-- C10: a single-seed query that resolves to a catalog item never returns
that item itself (the engine removes the resolved seed from the candidate
frame before scoring). -/
theorem c10_seed_never_returned {s : SysState} {q : String} {r : ℚ} {n : ℕ}
    {recs : List Rec} {ex : String}
    (hres : getRecommendationsAdjusted s q r n = some (recs, ex)) :
    ∀ rc ∈ recs, rc.title ≠ ex := by
  intro rc hm
  obtain ⟨w, hw, hrc⟩ := recsAdjusted_mem hres hm
  have h2 := mem_seriesFiltered (mem_regimeRows hw)
  rw [hrc, mkRec_title]
  exact h2.2.1

theorem c10_seed_never_returned_witness :
    getRecommendationsAdjusted zzzState "Zzz" 5 6 = some ([], "Zzz") ∧
    (∀ rc ∈ ([] : List Rec), rc.title ≠ "Zzz") := by
  have hres : getRecommendationsAdjusted zzzState "Zzz" 5 6 = some ([], "Zzz") := by
    unfold getRecommendationsAdjusted
    rw [show resolveName zzzState.userRatings_pivot.cols "Zzz" = some "Zzz" by
      simp [resolveName, zzzState]]
    simp only [show seriesFiltered zzzState "Zzz" = [] from rfl, regimeRows_nil]
    rfl
  exact ⟨hres, c10_seed_never_returned hres⟩

/-- C6 (amended): the same-series exclusion strips the token list, takes the
substring before the first `:` or `-` as the base name, and excludes the
candidate exactly when the SEED's base name is longer than 3 characters and
either base name occurs in the other's cleaned full name — the candidate
base's length is never tested.  Consequently seed `Naruto` excludes
candidate `Naruto Movie 1` at every affinity level. -/
theorem c6_series_filter :
    (∀ cand src : String,
      sameSeries cand src = true ↔
        3 < (baseName (cleanName src.data)).length ∧
          (hasSub (baseName (cleanName src.data)) (cleanName cand.data) = true ∨
            hasSub (baseName (cleanName cand.data)) (cleanName src.data) = true)) ∧
    sameSeries "Naruto Movie 1" "Naruto" = true ∧
    (∀ (s : SysState) (q : String) (r : ℚ) (n : ℕ) (recs : List Rec),
      getRecommendationsAdjusted s q r n = some (recs, "Naruto") →
      ∀ rc ∈ recs, rc.title ≠ "Naruto Movie 1") := by
  refine ⟨?_, by decide, ?_⟩
  · intro cand src
    unfold sameSeries
    by_cases h : 3 < (baseName (cleanName src.data)).length
    · rw [if_pos h]
      simp [h]
    · rw [if_neg h]
      simp [h]
  · intro s q r n recs hres rc hm
    obtain ⟨w, hw, hrc⟩ := recsAdjusted_mem hres hm
    have h2 := mem_seriesFiltered (mem_regimeRows hw)
    rw [hrc, mkRec_title]
    intro hname
    rw [hname] at h2
    have : sameSeries "Naruto Movie 1" "Naruto" = false := h2.2.2
    rw [show sameSeries "Naruto Movie 1" "Naruto" = true by decide] at this
    exact absurd this (by simp)

/-- C6 counterexample to the claim's "either base name of length greater
than 3" wording: for seed `abcdef: x` and candidate `ab`, the source
excludes (seed base `abcdef` is long and candidate base `ab` occurs in the
seed's cleaned name), while the claim's symmetric-length reading — here
`specSameSeries` — keeps it, because neither base name of length > 3 is
contained in the other's cleaned name. -/
theorem c6_series_filter_counterexample :
    sameSeries "ab" "abcdef: x" = true ∧
    specSameSeries "ab" "abcdef: x" = false := by
  exact ⟨by decide, by decide⟩

theorem c6_series_filter_witness :
    (sameSeries "Naruto Movie 1" "Naruto" = true ↔
      3 < (baseName (cleanName "Naruto".data)).length ∧
        (hasSub (baseName (cleanName "Naruto".data)) (cleanName "Naruto Movie 1".data) = true ∨
          hasSub (baseName (cleanName "Naruto Movie 1".data)) (cleanName "Naruto".data) = true)) ∧
    getRecommendationsAdjusted narutoState "Naruto" 5 6 = some ([], "Naruto") ∧
    (∀ rc ∈ ([] : List Rec), rc.title ≠ "Naruto Movie 1") := by
  have hres : getRecommendationsAdjusted narutoState "Naruto" 5 6 = some ([], "Naruto") := by
    unfold getRecommendationsAdjusted
    rw [show resolveName narutoState.userRatings_pivot.cols "Naruto" = some "Naruto" by
      simp [resolveName, narutoState]]
    simp only [show seriesFiltered narutoState "Naruto" = [] from rfl, regimeRows_nil]
    rfl
  exact ⟨c6_series_filter.1 "Naruto Movie 1" "Naruto", hres,
    c6_series_filter.2.2 narutoState "Naruto" 5 6 [] hres⟩

/-- C7: `has_data_changed` returns false whenever either fingerprint is
unavailable; with both available it is true exactly when they differ; it is
false right after a training run with the files untouched, and true once
either file's modification time changes. -/
theorem c7_has_data_changed (fs : Option ℚ × Option ℚ) (s : SysState) :
    (getDataFilesHash fs = none ∨ s.data_files_hash = none →
      hasDataChanged fs s = false) ∧
    (∀ c h, getDataFilesHash fs = some c → s.data_files_hash = some h →
      (hasDataChanged fs s = true ↔ c ≠ h)) ∧
    (∀ animes ratings store, getDataFilesHash fs ≠ none →
      hasDataChanged fs (trainModel fs animes ratings true s store).1 = false) ∧
    (∀ (a b a2 b2 : ℚ) animes ratings store, fs = (some a, some b) →
      (a2, b2) ≠ (a, b) →
      hasDataChanged (some a2, some b2)
        (trainModel fs animes ratings true s store).1 = true) := by
  refine ⟨?_, ?_, ?_, ?_⟩
  · intro h
    unfold hasDataChanged
    rcases h with h | h
    · rw [h]
    · rw [h]
      cases getDataFilesHash fs <;> rfl
  · intro c h hc hh
    unfold hasDataChanged
    rw [hc, hh]
    simp [bne_iff_ne]
  · intro animes ratings store hne
    have hhash : (trainModel fs animes ratings true s store).1.data_files_hash =
        getDataFilesHash fs := rfl
    unfold hasDataChanged
    rw [hhash]
    cases hg : getDataFilesHash fs with
    | none => rfl
    | some c => simp
  · intro a b a2 b2 animes ratings store hfs hne
    have hhash : (trainModel fs animes ratings true s store).1.data_files_hash =
        getDataFilesHash fs := rfl
    unfold hasDataChanged
    rw [hhash, hfs]
    have h1 : getDataFilesHash (some a2, some b2) = some (a2, b2) := rfl
    have h2 : getDataFilesHash (some a, some b) = some (a, b) := rfl
    rw [h1, h2]
    simp [bne_iff_ne, hne]

theorem c7_has_data_changed_witness :
    hasDataChanged (some 1, some 1) stServing1 = false ∧
    hasDataChanged (some 2, some 1) stServing1 = true := by
  constructor
  · have h := (c7_has_data_changed (some 1, some 1) stServing1).2.1 (1, 1) (1, 1) rfl rfl
    have h2 : ¬ hasDataChanged (some 1, some 1) stServing1 = true := fun hh => (h.mp hh) rfl
    exact Bool.eq_false_iff.mpr (fun hh => h2 hh)
  · exact ((c7_has_data_changed (some 2, some 1) stServing1).2.1 (2, 1) (1, 1) rfl rfl).mpr
      (by simp)

/-- C8: `_get_latest_version` returns the maximum version among the
version-named files (0 when none exist); each `train_model(save=True)`
appends exactly the version `latest+1`, which is never already present
(so versions are strictly increasing consecutive integers, never reused or
overwritten); and `N` successive saves advance the latest version by `N`. -/
theorem c8_versioning :
    (∀ st : Store,
      (∀ v ∈ st.map Prod.fst, v ≤ latestVersion st) ∧
      (latestVersion st = 0 ∨ latestVersion st ∈ st.map Prod.fst) ∧
      latestVersion st + 1 ∉ st.map Prod.fst) ∧
    (∀ fs animes ratings (s : SysState) (st : Store), ∃ md,
      (trainModel fs animes ratings true s st).2 =
        st ++ [(latestVersion st + 1, some md)]) ∧
    (∀ fs animes ratings (N : ℕ) (s : SysState) (st : Store),
      latestVersion (trainIter fs animes ratings N (s, st)).2 =
        latestVersion st + N) := by
  have hstep : ∀ fs animes ratings (s : SysState) (st : Store), ∃ md,
      (trainModel fs animes ratings true s st).2 =
        st ++ [(latestVersion st + 1, some md)] := by
    intro fs animes ratings s st
    exact ⟨_, rfl⟩
  refine ⟨?_, hstep, ?_⟩
  · intro st
    refine ⟨fun v hv => le_latestVersion hv, latestVersion_mem st, ?_⟩
    intro hmem
    have := le_latestVersion hmem
    omega
  · intro fs animes ratings N
    induction N with
    | zero => intro s st; simp [trainIter]
    | succ n ih =>
      intro s st
      have h1 : trainIter fs animes ratings (n + 1) (s, st) =
          trainIter fs animes ratings n
            (trainModel fs animes ratings true s st) := rfl
      rw [h1]
      obtain ⟨md, hmd⟩ := hstep fs animes ratings s st
      have h2 : trainModel fs animes ratings true s st =
          ((trainModel fs animes ratings true s st).1,
           st ++ [(latestVersion st + 1, some md)]) := by
        rw [← hmd]
      rw [h2, ih]
      rw [latestVersion_append]
      omega

theorem c8_versioning_witness :
    (1 : ℕ) ≤ latestVersion [(1, none), (3, none)] ∧
    latestVersion [(1, none), (3, none)] + 1 ∉
      ([(1, none), (3, none)] : Store).map Prod.fst ∧
    latestVersion
      (trainIter (none, none) [] [] 2 (blankState, [(1, none), (3, none)])).2 = 5 := by
  refine ⟨(c8_versioning.1 [(1, none), (3, none)]).1 1 (by simp), ?_, ?_⟩
  · exact (c8_versioning.1 [(1, none), (3, none)]).2.2
  · rw [c8_versioning.2.2 (none, none) [] [] 2 blankState [(1, none), (3, none)]]
    rfl

/-- C3 (amended): `reload_model` performs no newness check: whenever the
latest artifact on disk is loadable it reloads it and returns TRUE — also
when that artifact is the currently served version.  Called twice in a row
with no new artifact, it returns true both times and the served version is
unchanged.  It returns false only when no version-named file exists or when
loading fails.  (The `latest > current` comparison lives in the app-level
watcher, not in `reload_model`.) -/
theorem c3_reload_no_newer (store : Store) (s : SysState) (md : ModelData)
    (h0 : ¬ latestVersion store = 0)
    (hmd : List.lookup (latestVersion store) store = some (some md))
    (ha : md.animes_dict.isSome) (hu : md.users_dict.isSome)
    (hr : md.ratings_df.isSome) (hp : md.userRatings_pivot.isSome)
    (hc : md.corrMatrix.isSome) (hs : md.animeStats.isSome)
    (hv : latestVersion store = s.current_model_version) :
    (reloadModel store s).1 = true ∧
    (reloadModel store (reloadModel store s).2).1 = true ∧
    (reloadModel store s).2.current_model_version = s.current_model_version ∧
    (reloadModel store (reloadModel store s).2).2.current_model_version =
      s.current_model_version := by
  have key : ∀ s2 : SysState, (reloadModel store s2).1 = true ∧
      (reloadModel store s2).2.current_model_version = latestVersion store := by
    intro s2
    unfold reloadModel loadLatestModel
    simp only [if_neg h0, hmd]
    exact ⟨(loadFields_success ha hu hr hp hc hs _ _).1,
      (loadFields_success ha hu hr hp hc hs _ _).2.1⟩
  refine ⟨(key s).1, (key _).1, ?_, ?_⟩
  · rw [(key s).2, hv]
  · rw [(key _).2, hv]

/-- C3 counterexample: with a single loadable artifact v1 on disk and
version 1 already being served — i.e. no artifact newer than the served one
— `reload_model` returns TRUE (twice in a row), not false as claimed; only
the served version is indeed unchanged. -/
theorem c3_reload_no_newer_counterexample :
    stServing1.current_model_version = 1 ∧
    latestVersion storeV1 = 1 ∧
    (reloadModel storeV1 stServing1).1 = true ∧
    (reloadModel storeV1 (reloadModel storeV1 stServing1).2).1 = true ∧
    (reloadModel storeV1 stServing1).2.current_model_version = 1 := by
  refine ⟨rfl, rfl, rfl, rfl, rfl⟩

theorem c3_reload_no_newer_witness :
    (reloadModel storeV1 stServing1).1 = true ∧
    (reloadModel storeV1 (reloadModel storeV1 stServing1).2).1 = true ∧
    (reloadModel storeV1 stServing1).2.current_model_version =
      stServing1.current_model_version := by
  have h := c3_reload_no_newer storeV1 stServing1 mdTrivial
    (by decide) rfl rfl rfl rfl rfl rfl rfl rfl
  exact ⟨h.1, h.2.1, h.2.2.1⟩

/-- C4 (amended): a failed reload returns false, but the served snapshot
survives intact only when the failure occurs before the first field
assignment (no version-named file, or the artifact cannot be unpickled at
all).  When a required key is missing from the artifact dict, every field
extracted before it — here `animes_dict`, `users_dict`, `ratings_df` and
`userRatings_pivot` when `corrMatrix` is missing — has already been
overwritten on the served object by the time reload returns false; only the
fields at and after the failing key (and the version/fingerprint bookkeeping)
keep their old values. -/
theorem c4_failed_reload (store : Store) (s : SysState) (md : ModelData)
    (h0 : ¬ latestVersion store = 0)
    (hmd : List.lookup (latestVersion store) store = some (some md))
    (a : List (ℕ × AnimeObj)) (ha : md.animes_dict = some a)
    (u : List (ℕ × List UserEntry)) (hu : md.users_dict = some u)
    (r : List FactRow) (hr : md.ratings_df = some r)
    (p : Pivot) (hp : md.userRatings_pivot = some p)
    (hc : md.corrMatrix = none) :
    ((reloadModel store s).1 = false ∧
      (reloadModel store s).2.animes_dict = a ∧
      (reloadModel store s).2.users_dict = u ∧
      (reloadModel store s).2.ratings_df = r ∧
      (reloadModel store s).2.userRatings_pivot = p ∧
      (reloadModel store s).2.corrMatrix = s.corrMatrix ∧
      (reloadModel store s).2.animeStats = s.animeStats ∧
      (reloadModel store s).2.current_model_version = s.current_model_version ∧
      (reloadModel store s).2.data_files_hash = s.data_files_hash) ∧
    (∀ store2 : Store,
      latestVersion store2 = 0 ∨
        List.lookup (latestVersion store2) store2 = none ∨
        List.lookup (latestVersion store2) store2 = some none →
      reloadModel store2 s = (false, s)) := by
  constructor
  · unfold reloadModel loadLatestModel
    simp only [if_neg h0, hmd]
    unfold loadFields
    rw [ha, hu, hr, hp, hc]
    exact ⟨rfl, rfl, rfl, rfl, rfl, rfl, rfl, rfl, rfl⟩
  · intro store2 hbad
    unfold reloadModel loadLatestModel
    by_cases h0b : latestVersion store2 = 0
    · rw [if_pos h0b]
    · rw [if_neg h0b]
      rcases hbad with h | h | h
      · exact absurd h h0b
      · rw [h]
      · rw [h]

/-- C4 counterexample: reloading on a store whose latest artifact (v2) lacks
the `corrMatrix` key returns false — yet the served object's `animes_dict`
(and three further fields) have already been replaced by the corrupt
artifact's values, contradicting "no field of the served state is changed by
the failed reload". -/
theorem c4_failed_reload_counterexample :
    (reloadModel storeV2Bad stServing1).1 = false ∧
    (reloadModel storeV2Bad stServing1).2.animes_dict = [(5, ⟨5, "New", 3, none⟩)] ∧
    ¬ (reloadModel storeV2Bad stServing1).2.animes_dict = stServing1.animes_dict ∧
    (reloadModel storeV2Bad stServing1).2.corrMatrix.cols = stServing1.corrMatrix.cols := by
  refine ⟨rfl, rfl, ?_, rfl⟩
  intro h
  have h2 : ([(5, (⟨5, "New", 3, none⟩ : AnimeObj))] : List (ℕ × AnimeObj)) =
      [(99, ⟨99, "Old", 7, none⟩)] := h
  simp at h2

theorem c4_failed_reload_witness :
    (reloadModel storeV2Bad stServing1).1 = false ∧
    (reloadModel storeV2Bad stServing1).2.animes_dict = [(5, ⟨5, "New", 3, none⟩)] ∧
    (reloadModel storeV2Bad stServing1).2.corrMatrix = stServing1.corrMatrix ∧
    reloadModel [] stServing1 = (false, stServing1) := by
  have h := c4_failed_reload storeV2Bad stServing1 mdMissingCorr
    (by decide) rfl
    [(5, ⟨5, "New", 3, none⟩)] rfl
    [(7, [⟨7, 5, 9⟩])] rfl
    [] rfl
    ⟨[7], ["New"], [(7, "New", 9)]⟩ rfl
    rfl
  exact ⟨h.1.1, h.1.2.1, h.1.2.2.2.2.2.1, h.2 [] (Or.inl rfl)⟩

/-- C1 (amended): `train_model` does NOT operate on isolated local
structures: `_load_data_for_training` rebuilds every model structure from
the live CSV contents and assigns each one to the live system object as it
is built, before any reload.  After `train_model` returns (and before any
`reload_model`), the served object's fact table, pivot, correlation matrix,
stats and genre index are already those of the freshly trained version —
a query served between `train()` and `reload()` observes the new
structures, not the old version's.  Only when `save=False` is the artifact
store left untouched. -/
theorem c1_train_mutates_live_state (fs : Option ℚ × Option ℚ)
    (animes : List AnimeRow) (ratings : List RatingRow) (save : Bool)
    (s : SysState) (store : Store) :
    (trainModel fs animes ratings save s store).1.ratings_df =
        mergeFacts animes ratings ∧
    (trainModel fs animes ratings save s store).1.userRatings_pivot =
        buildPivot (mergeFacts animes ratings) ∧
    (trainModel fs animes ratings save s store).1.corrMatrix =
        buildCorrMatrix (buildPivot (mergeFacts animes ratings)) ∧
    (trainModel fs animes ratings save s store).1.animeStats =
        groupCount (mergeFacts animes ratings) ∧
    (trainModel fs animes ratings save s store).1.animeGenres =
        extractGenres s.animeGenres (mergeFacts animes ratings) ∧
    (trainModel fs animes ratings save s store).1.animePopularity =
        some (groupCount (mergeFacts animes ratings)) ∧
    (trainModel fs animes ratings save s store).1.animeAvgRating =
        some (groupMean (mergeFacts animes ratings)) ∧
    (save = false → (trainModel fs animes ratings save s store).2 = store) := by
  cases save
  · exact ⟨rfl, rfl, rfl, rfl, rfl, rfl, rfl, fun _ => rfl⟩
  · exact ⟨rfl, rfl, rfl, rfl, rfl, rfl, rfl, fun h => by simp at h⟩

/-- C1 counterexample: training while `stServing1` is the served state
overwrites the served structures in place — after `train_model` (no reload
involved), the served `animeStats`, pivot columns and correlation-matrix
columns are those of the new data, no longer the served version's. -/
theorem c1_train_mutates_live_state_counterexample :
    (trainModel (some 1, some 1) c1Animes c1Ratings true stServing1 []).1.animeStats =
        [("X", 1)] ∧
    ¬ (trainModel (some 1, some 1) c1Animes c1Ratings true stServing1 []).1.animeStats =
        stServing1.animeStats ∧
    (trainModel (some 1, some 1) c1Animes c1Ratings true stServing1
        []).1.userRatings_pivot.cols = ["X"] ∧
    ¬ (trainModel (some 1, some 1) c1Animes c1Ratings true stServing1
        []).1.userRatings_pivot.cols = stServing1.userRatings_pivot.cols ∧
    (trainModel (some 1, some 1) c1Animes c1Ratings true stServing1
        []).1.corrMatrix.cols = ["X"] ∧
    ¬ (trainModel (some 1, some 1) c1Animes c1Ratings true stServing1
        []).1.corrMatrix.cols = stServing1.corrMatrix.cols := by
  have hstats : (trainModel (some 1, some 1) c1Animes c1Ratings true stServing1
      []).1.animeStats = groupCount (mergeFacts c1Animes c1Ratings) := rfl
  have hpivot : (trainModel (some 1, some 1) c1Animes c1Ratings true stServing1
      []).1.userRatings_pivot.cols = pivotColsOf (mergeFacts c1Animes c1Ratings) := rfl
  have hcorr : (trainModel (some 1, some 1) c1Animes c1Ratings true stServing1
      []).1.corrMatrix.cols = pivotColsOf (mergeFacts c1Animes c1Ratings) := rfl
  have hval : groupCount (mergeFacts c1Animes c1Ratings) = [("X", 1)] := by
    simp [groupCount, groupNames, mergeFacts, c1Animes, c1Ratings, dedupList, insertUniq,
      sortLe, insertLe, List.filter]
  have hcols : pivotColsOf (mergeFacts c1Animes c1Ratings) = ["X"] := by
    simp [pivotColsOf, mergeFacts, c1Animes, c1Ratings, dedupList, insertUniq,
      sortLe, insertLe]
  refine ⟨hstats.trans hval, ?_, hpivot.trans hcols, ?_, hcorr.trans hcols, ?_⟩
  · rw [hstats, hval]
    intro h
    simp [stServing1] at h
  · rw [hpivot, hcols]
    intro h
    simp [stServing1] at h
  · rw [hcorr, hcols]
    intro h
    simp [stServing1] at h

/-- C9: the multi-seed query scales each resolved seed's correlation column
by a rating-dependent multiplier (boosted by 1.2 for ratings ≥ 4.5,
identity on [4, 4.5), dampened by 0.8 resp. 0.6 on [3.5, 4) resp. [3, 3.5),
sign-inverted below 3), sums the scaled entries per item, sorts descending,
drops every item named as a key of the affinity map, and returns at most
`n` items; in particular no key of the affinity map ever appears among the
returned titles, and every returned title carries its aggregate (summed)
score. -/
theorem c9_profile_query (s : SysState) (profile : List (String × ℚ)) (n : ℕ) :
    (∀ rec ∈ getRecommendationsForUser s profile n, ∀ kv ∈ profile,
      rec.title ≠ kv.1) ∧
    (∀ rec ∈ getRecommendationsForUser s profile n,
      (rec.title, aggScore (userContribs s profile) rec.title) ∈
        aggregateContribs (userContribs s profile)) ∧
    (getRecommendationsForUser s profile n).length ≤ n ∧
    (∀ r : ℚ,
      ((4.5 : ℚ) ≤ r → ratingMultiplier r = r * 1.2 ∧ r < ratingMultiplier r) ∧
      ((4 : ℚ) ≤ r → r < 4.5 → ratingMultiplier r = r) ∧
      ((3.5 : ℚ) ≤ r → r < 4 → ratingMultiplier r = r * 0.8) ∧
      ((3 : ℚ) ≤ r → r < 3.5 → ratingMultiplier r = r * 0.6) ∧
      ((3 : ℚ) ≤ r → r < 4 → 0 < ratingMultiplier r ∧ ratingMultiplier r < r) ∧
      ((2 : ℚ) ≤ r → r < 3 → ratingMultiplier r = -(6 - r)) ∧
      (r < 2 → ratingMultiplier r = -(7 - r)) ∧
      (r < 3 → ratingMultiplier r < 0)) := by
  have hdecomp : ∀ rec ∈ getRecommendationsForUser s profile n,
      ∃ cv : String × ℝ, rec.title = cv.1 ∧
        (!(profile.any (fun kv => kv.1 == cv.1))) = true ∧
        cv ∈ aggregateContribs (userContribs s profile) := by
    intro rec hrec
    unfold getRecommendationsForUser at hrec
    obtain ⟨cv, hcv, hbuild⟩ := List.mem_map.mp hrec
    have hcv2 := List.take_subset _ _ hcv
    have hfil := List.mem_filter.mp hcv2
    exact ⟨cv, by rw [← hbuild], hfil.2, mem_sortDesc hfil.1⟩
  refine ⟨?_, ?_, ?_, ?_⟩
  · intro rec hrec kv hkv
    obtain ⟨cv, htitle, hany, _⟩ := hdecomp rec hrec
    rw [htitle]
    have hfalse : profile.any (fun kv => kv.1 == cv.1) = false := by
      simpa using hany
    have := (List.any_eq_false.mp hfalse) kv hkv
    intro heq
    exact this (by rw [heq]; simp)
  · intro rec hrec
    obtain ⟨cv, htitle, _, hmem⟩ := hdecomp rec hrec
    unfold aggregateContribs at hmem ⊢
    obtain ⟨nm, hnm, heq⟩ := List.mem_map.mp hmem
    have h1 : cv.1 = nm := by rw [← heq]
    rw [htitle, h1]
    exact List.mem_map.mpr ⟨nm, hnm, rfl⟩
  · unfold getRecommendationsForUser
    rw [List.length_map]
    exact List.length_take_le _ _
  · intro r
    refine ⟨?_, ?_, ?_, ?_, ?_, ?_, ?_, ?_⟩
    · intro h1
      unfold ratingMultiplier
      rw [if_pos h1]
      constructor
      · rfl
      · nlinarith
    · intro h1 h2
      unfold ratingMultiplier
      rw [if_neg (by linarith), if_pos h1]
    · intro h1 h2
      unfold ratingMultiplier
      rw [if_neg (by linarith), if_neg (by linarith), if_pos h1]
    · intro h1 h2
      unfold ratingMultiplier
      rw [if_neg (by linarith), if_neg (by linarith), if_neg (by linarith), if_pos h1]
    · intro h1 h2
      unfold ratingMultiplier
      rcases le_or_lt (3.5 : ℚ) r with h3 | h3
      · rw [if_neg (by linarith), if_neg (by linarith), if_pos h3]
        constructor <;> nlinarith
      · rw [if_neg (by linarith), if_neg (by linarith), if_neg (by linarith), if_pos h1]
        constructor <;> nlinarith
    · intro h1 h2
      unfold ratingMultiplier
      rw [if_neg (by linarith), if_neg (by linarith), if_neg (by linarith),
        if_neg (by linarith), if_pos h1]
    · intro h1
      unfold ratingMultiplier
      rw [if_neg (by linarith), if_neg (by linarith), if_neg (by linarith),
        if_neg (by linarith), if_neg (by linarith)]
    · intro h1
      unfold ratingMultiplier
      rcases le_or_lt (2 : ℚ) r with h3 | h3
      · rw [if_neg (by linarith), if_neg (by linarith), if_neg (by linarith),
          if_neg (by linarith), if_pos h3]
        linarith
      · rw [if_neg (by linarith), if_neg (by linarith), if_neg (by linarith),
          if_neg (by linarith), if_neg (by linarith)]
        linarith

theorem c9_profile_query_witness :
    ((getRecommendationsForUser c9State [("Aa", 5)] 3).map (fun rec => rec.title) =
      ["Bb"]) ∧
    (∀ rec ∈ getRecommendationsForUser c9State [("Aa", 5)] 3, rec.title ≠ "Aa") := by
  have hc : userContribs c9State [("Aa", 5)] =
      [("Bb", (1 : ℝ) * ((ratingMultiplier 5 : ℚ) : ℝ))] := by
    unfold userContribs
    simp [resolveName, corrColumn, c9State]
  have hagg : aggregateContribs (userContribs c9State [("Aa", 5)]) =
      [("Bb", aggScore (userContribs c9State [("Aa", 5)]) "Bb")] := by
    rw [hc]
    unfold aggregateContribs aggNames
    simp [dedupList, insertUniq, sortLe, insertLe]
  constructor
  · unfold getRecommendationsForUser
    rw [hagg]
    simp [sortDesc, insertDesc, List.filter, List.take]
  · intro rec hrec
    exact (c9_profile_query c9State [("Aa", 5)] 3).1 rec hrec ("Aa", 5) (by simp)

theorem recsAdjusted_eval {s : SysState} {q : String} (r : ℚ) (n : ℕ) {e : String}
    (hres : resolveName s.userRatings_pivot.cols q = some e) :
    getRecommendationsAdjusted s q r n =
      some (((sortDesc (regimeScore s r (regimeRows r (seriesFiltered s e)))
        (regimeRows r (seriesFiltered s e))).take n).map (mkRec s), e) := by
  unfold getRecommendationsAdjusted
  rw [hres]

theorem sqrt_two_mul_two : Real.sqrt (((2 : ℚ) : ℝ) * ((2 : ℚ) : ℝ)) = 2 := by
  push_cast
  rw [show (2 : ℝ) * 2 = 2 ^ 2 by ring, Real.sqrt_sq (by norm_num)]

theorem pearson_pair_3355 : pearson [((3 : ℚ), (3 : ℚ)), (5, 5)] = some 1 := by
  rw [pearson_eval _ 2 2 2 (by norm_num [sqDevSum, meanQ]) (by norm_num [sqDevSum, meanQ])
    (by norm_num [devProdSum, meanQ]) (by norm_num) (by norm_num)]
  rw [sqrt_two_mul_two]
  norm_num

theorem c2_paired_AA :
    pairedColumn c2State.userRatings_pivot "Aaaa" "Aaaa" = [(3, 3), (5, 5)] := by
  simp [pairedColumn, pivotCell, c2State, List.find?]

theorem c2_paired_AB :
    pairedColumn c2State.userRatings_pivot "Aaaa" "Bbbb" = [(3, 3), (5, 5)] := by
  simp [pairedColumn, pivotCell, c2State, List.find?]

theorem c2_simList : simList c2State "Aaaa" = [("Aaaa", (1 : ℝ)), ("Bbbb", 1)] := by
  unfold simList
  rw [show c2State.userRatings_pivot.cols = ["Aaaa", "Bbbb"] from rfl]
  rw [List.filterMap_cons, List.filterMap_cons, List.filterMap_nil]
  rw [c2_paired_AA, c2_paired_AB, pearson_pair_3355]
  rfl

theorem c2_gsim : calcGenreSim (genresOf c2State "Aaaa") (genresOf c2State "Bbbb") = 1 := by
  have h1 : genresOf c2State "Aaaa" = ["G"] := by simp [genresOf, c2State, List.lookup]
  have h2 : genresOf c2State "Bbbb" = ["G"] := by simp [genresOf, c2State, List.lookup]
  rw [h1, h2]
  simp [calcGenreSim, interCount, unionCount, dedupList, insertUniq]

theorem c2_candidateRows :
    candidateRows c2State "Aaaa" =
      [{ name := "Bbbb", corr := (1 : ℝ), gsim := 1, avg := 249/50, pop := 100 }] := by
  unfold candidateRows
  rw [show c2State.animeStats = [("Aaaa", 2), ("Bbbb", 100)] from rfl, c2_simList]
  rw [List.filterMap_cons, List.filterMap_cons, List.filterMap_nil]
  rw [if_neg (by norm_num), if_pos (by norm_num : (100 : ℕ) ≤ 100)]
  rw [show List.lookup "Bbbb" [("Aaaa", (1 : ℝ)), ("Bbbb", 1)] = some 1 by
    simp [List.lookup]]
  rw [show avgOf c2State "Bbbb" = 249/50 by simp [avgOf, c2State, List.lookup]]
  rw [show popOf c2State "Bbbb" = 100 by simp [popOf, c2State, List.lookup]]
  rw [c2_gsim]
  rfl

theorem c2_seriesFiltered :
    seriesFiltered c2State "Aaaa" =
      [{ name := "Bbbb", corr := (1 : ℝ), gsim := 1, avg := 249/50, pop := 100 }] := by
  unfold seriesFiltered
  rw [c2_candidateRows]
  rw [show List.filter
      (fun w : Row => w.name != "Aaaa")
      [{ name := "Bbbb", corr := (1 : ℝ), gsim := 1, avg := 249/50, pop := 100 }] =
      [{ name := "Bbbb", corr := (1 : ℝ), gsim := 1, avg := 249/50, pop := 100 }] by
    simp]
  rw [List.filter_cons]
  rw [show (!sameSeries
      ({ name := "Bbbb", corr := (1 : ℝ), gsim := 1, avg := 249/50, pop := 100 } : Row).name
      "Aaaa") = true by decide]
  rfl

theorem c2_regime :
    regimeRows 5 (seriesFiltered c2State "Aaaa") = seriesFiltered c2State "Aaaa" := by
  rw [c2_seriesFiltered]
  unfold regimeRows
  rw [if_pos (by norm_num : (4.5 : ℚ) ≤ 5)]
  rw [filterP_cons_pos (fun w : Row => (0.5 : ℝ) < w.corr) _ [] (by norm_num)]
  rw [filterP_nil]
  rw [filterP_cons_pos (fun w : Row => (0.3 : ℚ) < w.gsim) _ [] (by norm_num)]
  rw [filterP_nil]

/-- C2 counterexample: in `c2State` only two users rated both `Aaaa` and
`Bbbb` (fewer than 100 co-raters), yet the single-seed engine — which
recomputes correlations with `corrwith` and no `min_periods` — admits and
returns `Bbbb` as a recommendation for seed `Aaaa`. -/
theorem c2_corater_floor_counterexample :
    (pairedColumn c2State.userRatings_pivot "Aaaa" "Bbbb").length = 2 ∧
    (getRecommendationsAdjusted c2State "Aaaa" 5 6).map
      (fun pr => (pr.1.map (fun rc => rc.title), pr.2)) = some (["Bbbb"], "Aaaa") := by
  constructor
  · rw [c2_paired_AB]
    rfl
  · rw [recsAdjusted_eval 5 6 (show resolveName c2State.userRatings_pivot.cols "Aaaa" =
      some "Aaaa" by simp [resolveName, c2State])]
    rw [c2_regime, c2_seriesFiltered, sortDesc_singleton]
    rfl

theorem mem_corrEntries {p : Pivot} {e : String × String × ℝ}
    (h : e ∈ (buildCorrMatrix p).entries) :
    100 ≤ (pairedColumn p e.1 e.2.1).length := by
  unfold buildCorrMatrix at h
  obtain ⟨i, _, h2⟩ := List.mem_flatMap.mp h
  obtain ⟨j, _, h3⟩ := List.mem_filterMap.mp h2
  by_cases hlen : 100 ≤ (pairedColumn p i j).length
  · rw [if_pos hlen] at h3
    obtain ⟨v, _, he⟩ := Option.map_eq_some'.mp h3
    rw [← he]
    exact hlen
  · rw [if_neg hlen] at h3
    simp at h3

/-- C2 (amended): the stored correlation matrix honours the 100-co-rater
floor — a pair with fewer than 100 co-raters is absent (undefined, not
zero) when queried, and the multi-seed path, which reads that matrix, never
derives candidate `b` from seed `a` via such a pair.  The single-seed path,
however, recomputes correlations from the pivot with `corrwith` and no
co-rater floor (only the per-item 100-rating popularity floor applies
there), so it CAN return a candidate whose pair with the seed has fewer
than 100 co-raters — see the counterexample. -/
theorem c2_corater_floor :
    (∀ (p : Pivot) (a b : String), (pairedColumn p a b).length < 100 →
      corrLookup (buildCorrMatrix p) a b = none) ∧
    (∀ (p : Pivot) (a b : String), (pairedColumn p a b).length < 100 →
      ∀ s : SysState, s.corrMatrix = buildCorrMatrix p →
        b ∉ (corrColumn s.corrMatrix a).map Prod.fst) := by
  constructor
  · intro p a b hlt
    unfold corrLookup
    cases hfind : (buildCorrMatrix p).entries.find?
        (fun e => e.1 == a && e.2.1 == b) with
    | none => rfl
    | some e =>
      exfalso
      have hmem := List.mem_of_find?_eq_some hfind
      have hpred := List.find?_some hfind
      have hae : e.1 = a ∧ e.2.1 = b := by
        constructor
        · exact eq_of_beq (Bool.and_elim_left hpred)
        · exact eq_of_beq (Bool.and_elim_right hpred)
      have h100 := mem_corrEntries hmem
      rw [hae.1, hae.2] at h100
      omega
  · intro p a b hlt s hs hmem
    rw [hs] at hmem
    obtain ⟨⟨b2, v⟩, hmem2, hb⟩ := List.mem_map.mp hmem
    obtain ⟨e, he, hfe⟩ := List.mem_filterMap.mp hmem2
    by_cases hcol : e.2.1 == a
    · rw [if_pos hcol] at hfe
      have h100 := mem_corrEntries he
      have he1 : e.1 = b2 := by
        have h2 : (e.1, e.2.2) = (b2, v) := by injection hfe
        exact ((Prod.mk.injEq _ _ _ _).mp h2).1
      have hca : e.2.1 = a := eq_of_beq hcol
      rw [he1, hca] at h100
      have hb2 : b2 = b := by simpa using hb
      rw [hb2] at h100
      rw [pairedColumn_length_comm] at h100
      omega
    · rw [if_neg hcol] at hfe
      simp at hfe

theorem c2_corater_floor_witness :
    ((pairedColumn (⟨[1], ["P", "Q"], [(1, "P", 3), (1, "Q", 4)]⟩ : Pivot)
        "P" "Q").length < 100) ∧
    corrLookup (buildCorrMatrix ⟨[1], ["P", "Q"], [(1, "P", 3), (1, "Q", 4)]⟩)
      "P" "Q" = none ∧
    "Q" ∉ (corrColumn c2wState.corrMatrix "P").map Prod.fst := by
  have hlen : (pairedColumn (⟨[1], ["P", "Q"], [(1, "P", 3), (1, "Q", 4)]⟩ : Pivot)
      "P" "Q").length < 100 := by
    simp [pairedColumn, pivotCell, List.find?]
  exact ⟨hlen, c2_corater_floor.1 _ "P" "Q" hlen,
    c2_corater_floor.2 _ "P" "Q" hlen c2wState rfl⟩

theorem c5_paired_AA :
    pairedColumn c5State.userRatings_pivot "A" "A" =
      [(6, 6), (6, 6), (4, 4), (4, 4)] := by
  simp [pairedColumn, pivotCell, c5State, List.find?]

theorem c5_paired_AB :
    pairedColumn c5State.userRatings_pivot "A" "B" =
      [(6, 17/2), (6, 9/2), (4, 11/2), (4, 3/2)] := by
  simp [pairedColumn, pivotCell, c5State, List.find?]

theorem c5_paired_AC :
    pairedColumn c5State.userRatings_pivot "A" "C" = [(6, 7)] := by
  simp [pairedColumn, pivotCell, c5State, List.find?]

theorem c5_pearson_AA :
    pearson [((6 : ℚ), (6 : ℚ)), (6, 6), (4, 4), (4, 4)] = some 1 := by
  rw [pearson_eval _ 4 4 4 (by norm_num [sqDevSum, meanQ]) (by norm_num [sqDevSum, meanQ])
    (by norm_num [devProdSum, meanQ]) (by norm_num) (by norm_num)]
  rw [show Real.sqrt (((4 : ℚ) : ℝ) * ((4 : ℚ) : ℝ)) = 4 by
    push_cast
    rw [show (4 : ℝ) * 4 = 4 ^ 2 by ring, Real.sqrt_sq (by norm_num)]]
  norm_num

theorem c5_pearson_AB :
    pearson [((6 : ℚ), (17/2 : ℚ)), (6, 9/2), (4, 11/2), (4, 3/2)] =
      some ((3 : ℝ) / 5) := by
  rw [pearson_eval _ 4 25 6 (by norm_num [sqDevSum, meanQ]) (by norm_num [sqDevSum, meanQ])
    (by norm_num [devProdSum, meanQ]) (by norm_num) (by norm_num)]
  rw [show Real.sqrt (((4 : ℚ) : ℝ) * ((25 : ℚ) : ℝ)) = 10 by
    push_cast
    rw [show (4 : ℝ) * 25 = 10 ^ 2 by ring, Real.sqrt_sq (by norm_num)]]
  norm_num

theorem c5_pearson_AC : pearson [((6 : ℚ), (7 : ℚ))] = none := by
  apply pearson_undefined
  left
  norm_num [sqDevSum, meanQ]

theorem c5_simList : simList c5State "A" = [("A", (1 : ℝ)), ("B", (3 : ℝ) / 5)] := by
  unfold simList
  rw [show c5State.userRatings_pivot.cols = ["A", "B", "C"] from rfl]
  rw [List.filterMap_cons, List.filterMap_cons, List.filterMap_cons, List.filterMap_nil]
  rw [c5_paired_AA, c5_paired_AB, c5_paired_AC, c5_pearson_AA, c5_pearson_AB, c5_pearson_AC]
  rfl

theorem c5_gsim : calcGenreSim (genresOf c5State "A") (genresOf c5State "B") = 1/3 := by
  have h1 : genresOf c5State "A" = ["X", "Y"] := by simp [genresOf, c5State, List.lookup]
  have h2 : genresOf c5State "B" = ["X", "Z"] := by simp [genresOf, c5State, List.lookup]
  rw [h1, h2]
  simp [calcGenreSim, interCount, unionCount, dedupList, insertUniq]

theorem c5_candidateRows :
    candidateRows c5State "A" =
      [{ name := "B", corr := (3 : ℝ) / 5, gsim := 1/3, avg := 5, pop := 100 }] := by
  unfold candidateRows
  rw [show c5State.animeStats = [("A", 4), ("B", 100), ("C", 100)] from rfl, c5_simList]
  rw [List.filterMap_cons, List.filterMap_cons, List.filterMap_cons, List.filterMap_nil]
  rw [if_neg (by norm_num), if_pos (by norm_num : (100 : ℕ) ≤ 100),
    if_pos (by norm_num : (100 : ℕ) ≤ 100)]
  rw [show List.lookup "B" [("A", (1 : ℝ)), ("B", (3 : ℝ) / 5)] = some ((3 : ℝ) / 5) by
    simp [List.lookup]]
  rw [show List.lookup "C" [("A", (1 : ℝ)), ("B", (3 : ℝ) / 5)] = none by
    simp [List.lookup]]
  rw [show avgOf c5State "B" = 5 by simp [avgOf, c5State, List.lookup]]
  rw [show popOf c5State "B" = 100 by simp [popOf, c5State, List.lookup]]
  rw [c5_gsim]
  rfl

theorem c5_seriesFiltered :
    seriesFiltered c5State "A" =
      [{ name := "B", corr := (3 : ℝ) / 5, gsim := 1/3, avg := 5, pop := 100 }] := by
  unfold seriesFiltered
  rw [c5_candidateRows]
  rw [List.filter_cons]
  rw [if_pos (show ((⟨"B", (3 : ℝ) / 5, 1/3, 5, 100⟩ : Row).name != "A") = true by decide)]
  rw [List.filter_nil, List.filter_cons]
  rw [if_pos (show (!sameSeries (⟨"B", (3 : ℝ) / 5, 1/3, 5, 100⟩ : Row).name "A") = true
    by decide)]
  rfl

theorem c5_regime :
    regimeRows (9/2) (seriesFiltered c5State "A") = seriesFiltered c5State "A" := by
  rw [c5_seriesFiltered]
  unfold regimeRows
  rw [if_pos (by norm_num : (4.5 : ℚ) ≤ 9/2)]
  rw [filterP_cons_pos (fun w : Row => (0.5 : ℝ) < w.corr) _ [] (by norm_num)]
  rw [filterP_nil]
  rw [filterP_cons_pos (fun w : Row => (0.3 : ℚ) < w.gsim) _ [] (by norm_num)]
  rw [filterP_nil]

theorem c5_run :
    getRecommendationsAdjusted c5State "A" (9/2) 1 =
      some ([mkRec c5State
        { name := "B", corr := (3 : ℝ) / 5, gsim := 1/3, avg := 5, pop := 100 }], "A") := by
  rw [recsAdjusted_eval (9/2) 1 (show resolveName c5State.userRatings_pivot.cols "A" =
    some "A" by simp [resolveName, c5State])]
  rw [c5_regime, c5_seriesFiltered, sortDesc_singleton]
  rfl

/-- C5: in the high-affinity regime (rating ≥ 4.5) a candidate is admitted
only with correlation above 0.5 AND genre similarity above 0.3, and its
final score is `0.6·corr + 0.3·genre_sim + 0.1·(mean_rating/10)` — no
popularity term.  In the spec's scenario (seed `A`, genres X,Y; `B` with
genres X,Z and correlation 0.6; `C` with an undefined correlation from a
single co-rater), querying `A` with affinity 4.5 and count 1 returns
exactly `B`, whose genre similarity 1/3 exceeds 0.3. -/
theorem c5_high_affinity_regime :
    (∀ (s : SysState) (q : String) (r : ℚ) (n : ℕ) (recs : List Rec) (ex : String),
      (4.5 : ℚ) ≤ r →
      getRecommendationsAdjusted s q r n = some (recs, ex) →
      ∀ rc ∈ recs, ∃ w, w ∈ seriesFiltered s ex ∧ rc = mkRec s w ∧
        (0.5 : ℝ) < w.corr ∧ (0.3 : ℚ) < w.gsim ∧
        (∀ rows, regimeScore s r rows w =
          w.corr * 0.6 + (w.gsim : ℝ) * 0.3 + ((w.avg : ℝ) / 10) * 0.1)) ∧
    ((getRecommendationsAdjusted c5State "A" (9/2) 1).map
      (fun pr => (pr.1.map (fun rc => rc.title), pr.2)) = some (["B"], "A")) ∧
    calcGenreSim (genresOf c5State "A") (genresOf c5State "B") = 1/3 ∧
    ((0.3 : ℚ) < 1/3) ∧
    (pairedColumn c5State.userRatings_pivot "A" "C").length < 100 ∧
    pearson (pairedColumn c5State.userRatings_pivot "A" "C") = none := by
  refine ⟨?_, ?_, c5_gsim, by norm_num, ?_, ?_⟩
  · intro s q r n recs ex hr hres rc hm
    obtain ⟨w, hw, hrc⟩ := recsAdjusted_mem hres hm
    have h2 := mem_regimeRows_high hr hw
    exact ⟨w, h2.1, hrc, h2.2.1, h2.2.2, fun rows => regimeScore_high hr rows w⟩
  · rw [c5_run]
    rfl
  · rw [c5_paired_AC]
    norm_num
  · rw [c5_paired_AC]
    exact c5_pearson_AC

theorem c5_high_affinity_regime_witness :
    getRecommendationsAdjusted c5State "A" (9/2) 1 =
      some ([mkRec c5State
        { name := "B", corr := (3 : ℝ) / 5, gsim := 1/3, avg := 5, pop := 100 }], "A") ∧
    (∃ w, w ∈ seriesFiltered c5State "A" ∧
      mkRec c5State
        { name := "B", corr := (3 : ℝ) / 5, gsim := 1/3, avg := 5, pop := 100 } =
          mkRec c5State w ∧
      (0.5 : ℝ) < w.corr ∧ (0.3 : ℚ) < w.gsim ∧
      (∀ rows, regimeScore c5State (9/2) rows w =
        w.corr * 0.6 + (w.gsim : ℝ) * 0.3 + ((w.avg : ℝ) / 10) * 0.1)) := by
  refine ⟨c5_run, ?_⟩
  exact c5_high_affinity_regime.1 c5State "A" (9/2) 1
    [mkRec c5State { name := "B", corr := (3 : ℝ) / 5, gsim := 1/3, avg := 5, pop := 100 }]
    "A" (by norm_num) c5_run
    (mkRec c5State { name := "B", corr := (3 : ℝ) / 5, gsim := 1/3, avg := 5, pop := 100 })
    (List.mem_singleton.mpr rfl)

theorem c1_train_mutates_live_state_witness :
    (trainModel (some 1, some 1) c1Animes c1Ratings false stServing1 []).1.animeStats =
      groupCount (mergeFacts c1Animes c1Ratings) ∧
    (trainModel (some 1, some 1) c1Animes c1Ratings false stServing1 []).1.corrMatrix =
      buildCorrMatrix (buildPivot (mergeFacts c1Animes c1Ratings)) ∧
    (trainModel (some 1, some 1) c1Animes c1Ratings false stServing1 []).2 = [] := by
  refine ⟨?_, ?_, ?_⟩
  · exact (c1_train_mutates_live_state (some 1, some 1) c1Animes c1Ratings false
      stServing1 []).2.2.2.1
  · exact (c1_train_mutates_live_state (some 1, some 1) c1Animes c1Ratings false
      stServing1 []).2.2.1
  · exact (c1_train_mutates_live_state (some 1, some 1) c1Animes c1Ratings false
      stServing1 []).2.2.2.2.2.2.2 rfl
